import Mathlib

/-!
# Chain parameters of the LUX node (src/chainparams.cpp)

A shallow embedding of `chainparams.cpp`: the proof-of-work predicate
`CheckProof`, the seed converter `convertSeed6`, the checkpoint tables, the
constructors of the five parameter classes, and the selection functions
`Params`, `SelectParams`, `CreateChainParams` and `ModifiableParams`.

Conventions.
* A `uint256` is a natural number below `2^256`; `unsigned int` is a natural
  number below `2^32`.
* `assert` failures and thrown exceptions are values of `Failure`; a function
  that can fail returns `Except Failure _`.
* Functions that `chainparams.cpp` calls but does not define (the block hash,
  the merkle tree, the clock, the random source, ...) are fields of `Env`.
-/

namespace Lux

/-! ## Compact targets and the proof-of-work predicate -/

/-- What `uint256::SetCompact(nBits, &fNegative, &fOverflow)` leaves behind:
the decoded number and the two flags. -/
structure CompactResult where
  target : Nat
  fNegative : Bool
  fOverflow : Bool
  deriving DecidableEq

/-- Modelled from the spec: `uint256::SetCompact` (declared in `uint256.h`,
which is not part of the sources at hand), "a 32-bit compact encoding where
the high byte is an exponent and the low 3 bytes are a mantissa (standard
difficulty-compact format)", with the flags `negative` (sign bit of the
mantissa) and `overflow` (the value exceeds 256 bits).  The standard decoder:
the exponent is `nCompact >> 24`, the mantissa `nCompact & 0x007fffff`; for an
exponent of at most 3 the mantissa is shifted right, otherwise it is shifted
left inside 256 bits; both flags are raised only for a non-zero mantissa. -/
def SetCompact (nCompact : Nat) : CompactResult :=
  let n := nCompact % 2 ^ 32
  let nSize := n / 2 ^ 24
  let nWord0 := n % 2 ^ 23
  let nWord := if nSize ≤ 3 then nWord0 / 2 ^ (8 * (3 - nSize)) else nWord0
  let value := if nSize ≤ 3 then nWord else (nWord * 2 ^ (8 * (nSize - 3))) % 2 ^ 256
  { target := value
    fNegative := decide (nWord ≠ 0) && decide ((n / 2 ^ 23) % 2 = 1)
    fOverflow := decide (nWord ≠ 0) &&
      (decide (nSize > 34) || (decide (nWord > 0xff) && decide (nSize > 33)) ||
        (decide (nWord > 0xffff) && decide (nSize > 32))) }

/-- The function `CheckProof(uint256 hash, unsigned int nBits)`.  The decoder
`bnTarget.SetCompact` is the first argument; `hash > bnTarget` is the
comparison of the two 256-bit numbers. -/
def CheckProof (setCompact : Nat → CompactResult) (hash nBits : Nat) : Bool :=
  let r := setCompact nBits
  let fNegative := r.fNegative
  let fOverflow := r.fOverflow
  let bnTarget := r.target
  -- Check range
  if fNegative || decide (bnTarget = 0) || fOverflow then
    false
  -- Check proof of work matches claimed amount
  else if hash > bnTarget then
    false
  else
    true

/-! ## Failures, networks, and the functions taken from other files -/

/-- How a call can fail to return: a failed `assert` (the process aborts) or
a thrown `std::runtime_error`. -/
inductive Failure where
  | assertion (expr : String)
  | runtime_error (what : String)
  deriving DecidableEq

/-- The enumeration `CBaseChainParams::Network`, with the enumerators that
`chainparams.cpp` names. -/
inductive Network where
  | MAIN
  | TESTNET
  | REGTEST
  | UNITTEST
  | SEGWITTEST
  | MAX_NETWORK_TYPES
  deriving DecidableEq

/-- The record `struct SeedSpec6 { uint8_t addr[16]; uint16_t port; }`. -/
structure SeedSpec6 where
  addr : List Nat
  port : Nat
  deriving DecidableEq

/-- The value `CService(ip, port)`: an IPv6 address and a port. -/
structure CService where
  ip : List Nat
  port : Nat
  deriving DecidableEq

/-- The value `CAddress(service, nServices)` together with its `nTime` member.
The members are declared in `protocol.h`; `nTime` is the member
`unsigned int nTime`, a number from 0 to `2^32 - 1`. -/
structure CAddress where
  service : CService
  nServices : Nat
  nTime : Int
  deriving DecidableEq

/-- The value `CDNSSeedData(name, host)`. -/
structure CDNSSeedData where
  name : String
  host : String
  deriving DecidableEq

/-- One element appended to a `CScript` by `operator<<`. -/
inductive ScriptElem where
  | int (n : Int)
  | scriptNum (n : Int)
  | chars (s : String)
  | bytes (b : List Nat)
  | OP_CHECKSIG
  deriving DecidableEq

/-- A script is the sequence of the elements pushed onto it. -/
abbrev CScript := List ScriptElem

/-- The input `CTxIn` of a transaction, as far as the constructors set it. -/
structure CTxIn where
  scriptSig : CScript
  deriving DecidableEq

/-- The output `CTxOut` of a transaction. -/
structure CTxOut where
  nValue : Int
  scriptPubKey : CScript
  deriving DecidableEq

/-- The transaction `CMutableTransaction`. -/
structure CMutableTransaction where
  nVersion : Int
  nTime : Nat
  nLockTime : Nat
  vin : List CTxIn
  vout : List CTxOut
  deriving DecidableEq

/-- The block `CBlock`: the header members that the constructors assign and
the transaction list. -/
structure CBlock where
  nVersion : Int
  hashPrevBlock : Nat
  hashMerkleRoot : Nat
  nTime : Nat
  nBits : Nat
  nNonce : Nat
  hashStateRoot : Nat
  hashUTXORoot : Nat
  vtx : List CMutableTransaction
  deriving DecidableEq

/-- The block after `CBlock::SetNull()`, which is also the default-constructed
block: every header member zero, no transaction. -/
def CBlock.SetNull : CBlock :=
  { nVersion := 0, hashPrevBlock := 0, hashMerkleRoot := 0, nTime := 0, nBits := 0,
    nNonce := 0, hashStateRoot := 0, hashUTXORoot := 0, vtx := [] }

/-- What `chainparams.cpp` uses and does not define.
* `GetHash` is `CBlock::GetHash()`, `BuildMerkleTree` is
  `CBlock::BuildMerkleTree()` as a function of the transaction list.
* `GetTime k` and `GetRand k nMax` are the values returned by the `k`-th call
  of `GetTime()` and of `GetRand(nMax)`.
* `pnSeed6_main` and `pnSeed6_test` are the arrays of `chainparamsseeds.h`.
* `SelectBaseParams` is the function of `chainparamsbase.cpp`; it acts on a
  pointer of its own file and either returns or fails.
* `NODE_NETWORK`, `ParseHex`, `h256Touint` and `sha3_rlp_empty` (the value
  `dev::sha3(dev::rlp(""))`) are the constant and the helpers of those names. -/
structure Env where
  GetHash : CBlock → Nat
  BuildMerkleTree : List CMutableTransaction → Nat
  GetTime : Nat → Int
  GetRand : Nat → Int → Int
  pnSeed6_main : List SeedSpec6
  pnSeed6_test : List SeedSpec6
  SelectBaseParams : Network → Except Failure Unit
  NODE_NETWORK : Nat
  ParseHex : String → List Nat
  h256Touint : String → Nat
  sha3_rlp_empty : String

/-! ## The seed converter -/

/-- The constant `nOneWeek = 7 * 24 * 60 * 60` of `convertSeed6`. -/
def nOneWeek : Int := 7 * 24 * 60 * 60

/-- The function `convertSeed6(vSeedsOut, data, count)`.  The array `data`
with its length `count` is a list; the loop runs over it from the first
record to the last.  The number `k` counts the calls of `GetTime` and
`GetRand` made so far (one of each in every iteration) and is returned
with the output vector.  The right-hand side of the assignment to `nTime` is
evaluated in 64-bit arithmetic (`nOneWeek` is an `int64_t`, `GetRand` returns
a `uint64_t`) and stored in the 32-bit member: the difference is reduced
modulo `2^64` and then modulo `2^32`. -/
def convertSeed6 (env : Env) : List CAddress → List SeedSpec6 → Nat → List CAddress × Nat
  | vSeedsOut, [], k => (vSeedsOut, k)
  | vSeedsOut, d :: rest, k =>
    let ip := d.addr
    let addr : CAddress :=
      { service := { ip := ip, port := d.port }, nServices := env.NODE_NETWORK, nTime := 100000000 }
    let addr := { addr with
      nTime := (env.GetTime k - env.GetRand k nOneWeek - nOneWeek) % 2 ^ 64 % 2 ^ 32 }
    convertSeed6 env (vSeedsOut ++ [addr]) rest (k + 1)

/-! ## Checkpoint tables -/

/-- The map `Checkpoints::MapCheckpoints` (`std::map<int, uint256>`), as the
list of its entries in increasing order of height. -/
abbrev MapCheckpoints := List (Int × Nat)

/-- The record `Checkpoints::CCheckpointData`. -/
structure CCheckpointData where
  mapCheckpoints : MapCheckpoints
  nTimeLastCheckpoint : Int
  nTransactionsLastCheckpoint : Int
  fTransactionsPerDay : Int
  deriving DecidableEq

/-- The hash stored for a height, `mapCheckpoints.find(height)`. -/
def MapCheckpoints.find (m : MapCheckpoints) (height : Int) : Option Nat :=
  List.lookup height m

/-- The table `mapCheckpoints = map_list_of(0, uint256("0"))`. -/
def mapCheckpoints : MapCheckpoints := [(0, 0x0)]

/-- The record `data` of the main network. -/
def data : CCheckpointData :=
  { mapCheckpoints := mapCheckpoints, nTimeLastCheckpoint := 0,
    nTransactionsLastCheckpoint := 0, fTransactionsPerDay := 0 }

/-- The table `mapCheckpointsTestnet = map_list_of(0, uint256("0"))`. -/
def mapCheckpointsTestnet : MapCheckpoints := [(0, 0x0)]

/-- The record `dataTestnet`. -/
def dataTestnet : CCheckpointData :=
  { mapCheckpoints := mapCheckpointsTestnet, nTimeLastCheckpoint := 0,
    nTransactionsLastCheckpoint := 0, fTransactionsPerDay := 0 }

/-- The table `mapCheckpointsRegtest = map_list_of(0, uint256("0"))`. -/
def mapCheckpointsRegtest : MapCheckpoints := [(0, 0x0)]

/-- The record `dataRegtest`. -/
def dataRegtest : CCheckpointData :=
  { mapCheckpoints := mapCheckpointsRegtest, nTimeLastCheckpoint := 0,
    nTransactionsLastCheckpoint := 0, fTransactionsPerDay := 0 }

/-- The table `mapCheckpointsSegWittest = map_list_of(0, uint256("0"))`. -/
def mapCheckpointsSegWittest : MapCheckpoints := [(0, 0x0)]

/-- The record `dataSegwittest`. -/
def dataSegwittest : CCheckpointData :=
  { mapCheckpoints := mapCheckpointsSegWittest, nTimeLastCheckpoint := 0,
    nTransactionsLastCheckpoint := 0, fTransactionsPerDay := 0 }

/-! ## The parameter object -/

/-- The record `Consensus::BIP9Deployment`. -/
structure BIP9Deployment where
  bit : Int
  nStartTime : Int
  nTimeout : Int
  deriving DecidableEq

/-- The array `consensus.vDeployments`, one entry for each position of
`Consensus::DeploymentPos` that the constructors use. -/
structure Deployments where
  DEPLOYMENT_TESTDUMMY : BIP9Deployment
  DEPLOYMENT_CSV : BIP9Deployment
  DEPLOYMENT_SEGWIT : BIP9Deployment
  SMART_CONTRACTS_HARDFORK : BIP9Deployment
  deriving DecidableEq

/-- The record `Consensus::Params` (the member `consensus`). -/
structure Consensus.Params where
  hashGenesisBlock : Nat
  nMajorityEnforceBlockUpgrade : Int
  nMajorityRejectBlockOutdated : Int
  nMajorityWindow : Int
  powLimit : Nat
  nPowTargetTimespan : Int
  nPowTargetSpacing : Int
  fPowAllowMinDifficultyBlocks : Bool
  fPowNoRetargeting : Bool
  nRuleChangeActivationThreshold : Int
  nMinerConfirmationWindow : Int
  nLastPOWBlock : Int
  vDeployments : Deployments
  deriving DecidableEq

/-- The array `base58Prefixes`, one entry for each `Base58Type`. -/
structure Base58Prefixes where
  PUBKEY_ADDRESS : List Nat
  SCRIPT_ADDRESS : List Nat
  SECRET_KEY : List Nat
  EXT_PUBLIC_KEY : List Nat
  EXT_SECRET_KEY : List Nat
  EXT_COIN_TYPE : List Nat
  deriving DecidableEq

/-- The class of an object: the base class `CChainParams` and the five
classes that `chainparams.cpp` derives from it.  It decides which
`Checkpoints()` a virtual call reaches. -/
inductive ParamsClass where
  | CChainParams
  | CMainParams
  | CTestNetParams
  | CRegTestParams
  | CUnitTestParams
  | CSegWitTestnet
  deriving DecidableEq

/-- An object of class `CChainParams` or of a class derived from it: its
dynamic class and the members that the constructors assign. -/
structure CChainParams where
  dynClass : ParamsClass
  networkID : Network
  strNetworkID : String
  consensus : Consensus.Params
  nSwitchPhi2Block : Int
  nFirstSCBlock : Int
  nPruneAfterHeight : Int
  nSplitRewardBlock : Int
  pchMessageStart : List Nat
  vAlertPubKey : List Nat
  nDefaultPort : Int
  nMaxReorganizationDepth : Int
  nMinerThreads : Int
  nMaturity : Int
  nMasternodeCountDrift : Int
  nModifierUpdateBlock : Int
  genesis : CBlock
  vSeeds : List CDNSSeedData
  base58Prefixes : Base58Prefixes
  bech32_hrp : String
  vFixedSeeds : List CAddress
  fRequireRPCPassword : Bool
  fMiningRequiresPeers : Bool
  fDefaultConsistencyChecks : Bool
  fRequireStandard : Bool
  fMineBlocksOnDemand : Bool
  fSkipProofOfWorkCheck : Bool
  fTestnetToBeDeprecatedFieldRPC : Bool
  fHeadersFirstSyncingActive : Bool
  nPoolMaxTransactions : Int
  strSporkKey : String
  strDarksendPoolDummyAddress : String
  nStartMasternodePayments : Int
  nStakingRoundPeriod : Int
  nStakingInterval : Int
  nStakingMinAge : Int
  deriving DecidableEq

/-- An entry of `vDeployments` before a constructor assigns it. -/
def BIP9Deployment.zero : BIP9Deployment := { bit := 0, nStartTime := 0, nTimeout := 0 }

/-- The object when the body of the first constructor starts: the containers
and strings are empty, the block is null, and the scalar members are zero (the
five objects of the file have static storage). -/
def CChainParams.base : CChainParams :=
  { dynClass := .CChainParams, networkID := .MAIN, strNetworkID := "",
    consensus :=
      { hashGenesisBlock := 0, nMajorityEnforceBlockUpgrade := 0,
        nMajorityRejectBlockOutdated := 0, nMajorityWindow := 0, powLimit := 0,
        nPowTargetTimespan := 0, nPowTargetSpacing := 0, fPowAllowMinDifficultyBlocks := false,
        fPowNoRetargeting := false, nRuleChangeActivationThreshold := 0,
        nMinerConfirmationWindow := 0, nLastPOWBlock := 0,
        vDeployments :=
          { DEPLOYMENT_TESTDUMMY := .zero, DEPLOYMENT_CSV := .zero, DEPLOYMENT_SEGWIT := .zero,
            SMART_CONTRACTS_HARDFORK := .zero } },
    nSwitchPhi2Block := 0, nFirstSCBlock := 0, nPruneAfterHeight := 0, nSplitRewardBlock := 0,
    pchMessageStart := [0, 0, 0, 0], vAlertPubKey := [], nDefaultPort := 0,
    nMaxReorganizationDepth := 0, nMinerThreads := 0, nMaturity := 0,
    nMasternodeCountDrift := 0, nModifierUpdateBlock := 0, genesis := CBlock.SetNull,
    vSeeds := [],
    base58Prefixes :=
      { PUBKEY_ADDRESS := [], SCRIPT_ADDRESS := [], SECRET_KEY := [], EXT_PUBLIC_KEY := [],
        EXT_SECRET_KEY := [], EXT_COIN_TYPE := [] },
    bech32_hrp := "", vFixedSeeds := [], fRequireRPCPassword := false,
    fMiningRequiresPeers := false, fDefaultConsistencyChecks := false, fRequireStandard := false,
    fMineBlocksOnDemand := false, fSkipProofOfWorkCheck := false,
    fTestnetToBeDeprecatedFieldRPC := false, fHeadersFirstSyncingActive := false,
    nPoolMaxTransactions := 0, strSporkKey := "", strDarksendPoolDummyAddress := "",
    nStartMasternodePayments := 0, nStakingRoundPeriod := 0, nStakingInterval := 0,
    nStakingMinAge := 0 }

/-- The virtual member function `Checkpoints()`: each class returns its own
record, `CUnitTestParams` the one of the main network; the base class has no
implementation. -/
def CChainParams.Checkpoints (p : CChainParams) : Option CCheckpointData :=
  match p.dynClass with
  | .CChainParams => none
  | .CMainParams => some data
  | .CTestNetParams => some dataTestnet
  | .CRegTestParams => some dataRegtest
  | .CUnitTestParams => some data
  | .CSegWitTestnet => some dataSegwittest

/-- The hash that the table of `Checkpoints()` holds for a height. -/
def CChainParams.checkpointHash (p : CChainParams) (height : Int) : Option Nat :=
  p.Checkpoints.bind fun d => d.mapCheckpoints.find height

/-- The value `~uint256(0)`. -/
def uint256_max : Nat := 2 ^ 256 - 1

/-- The constant that `CMainParams` asserts for `consensus.hashGenesisBlock`. -/
def mainGenesisHash : Nat :=
  0x000009f632929508d7d1e3530e2a9f795824074d4c0f3cd670acb8ecb424de87

/-- The constant that `CMainParams` asserts for `genesis.hashMerkleRoot`. -/
def mainMerkleRoot : Nat :=
  0x7f4ad75b2d0056751bd3ba5b23b740302be736d77ac1bbca29412affe2afcc47

/-- The constant of the assertion on `consensus.hashGenesisBlock` that
`CTestNetParams` has in a comment. -/
def testnetGenesisHash : Nat :=
  0x00000ed61786c92e01948df9f543fc2effc17a025ec14f743ec1848dff81233b

/-- The constant of the assertion on `genesis.hashMerkleRoot` that
`CTestNetParams` has in a comment. -/
def testnetMerkleRoot : Nat :=
  0x484415096c0c3f026838b97854d02bbf38aad5449938ef62f1fdd51c371a1696

/-- The constant of the assertion on `consensus.hashGenesisBlock` that
`CSegWitTestnet` has in a comment. -/
def segwitGenesisHash : Nat :=
  0x00000a1a2a728145f14f873037b5f4188c1b36d20f8187d329e412b97cdbaabf

/-- The constant of the assertion on `genesis.hashMerkleRoot` that
`CSegWitTestnet` has in a comment. -/
def segwitMerkleRoot : Nat :=
  0xb35719fbe3e4d52f06d791e938de406d48defadb83beeb1fdd10c7ef52a481c2

/-! ## The constructors

Each constructor is a function of the environment and of the number `k` of
clock and random calls made so far; it returns the finished object and the new
count, or the failure of an assertion.  A derived class runs the constructor
of its base class first and then its own body. -/

/-- The constructor `CMainParams::CMainParams()`. -/
def CMainParams (env : Env) (k : Nat) : Except Failure (CChainParams × Nat) := do
  let p := { CChainParams.base with dynClass := .CMainParams }
  let p := { p with
    networkID := .MAIN
    strNetworkID := "main"
    consensus.nMajorityEnforceBlockUpgrade := 750
    consensus.nMajorityRejectBlockOutdated := 950
    consensus.nMajorityWindow := 1000
    consensus.powLimit := uint256_max >>> 20
    consensus.nPowTargetTimespan := 60
    consensus.nPowTargetSpacing := 60
    consensus.fPowAllowMinDifficultyBlocks := false
    consensus.fPowNoRetargeting := false
    consensus.nRuleChangeActivationThreshold := 1026
    consensus.nMinerConfirmationWindow := 1080
    consensus.nLastPOWBlock := 6000000
    consensus.vDeployments.DEPLOYMENT_SEGWIT.bit := 1
    consensus.vDeployments.DEPLOYMENT_SEGWIT.nStartTime := 1528234050
    consensus.vDeployments.DEPLOYMENT_SEGWIT.nTimeout := 1528372800
    consensus.vDeployments.DEPLOYMENT_CSV.bit := 0
    consensus.vDeployments.DEPLOYMENT_CSV.nStartTime := 1528234050
    consensus.vDeployments.DEPLOYMENT_CSV.nTimeout := 1528372800
    consensus.vDeployments.SMART_CONTRACTS_HARDFORK.bit := 30
    nSwitchPhi2Block := 1000
    nFirstSCBlock := 1000
    nPruneAfterHeight := 1000
    nSplitRewardBlock := 1000
    pchMessageStart := [0xf6, 0xa8, 0xd3, 0xc4]
    vAlertPubKey := env.ParseHex "042d13c016ed91528241bcff222989769417eb10cdb679228c91e26e26900eb9fd053cd9f16a9a2894ad5ebbd551be1a4bd23bd55023679be17f0bd3a16e6fbeba"
    nDefaultPort := 28666
    nMaxReorganizationDepth := 100
    nMinerThreads := 0
    nMaturity := 79
    nMasternodeCountDrift := 20
    nModifierUpdateBlock := 615800 }
  let pszTimestamp := "Lux - final test 1"
  let txNew : CMutableTransaction :=
    { nVersion := 1, nTime := 1528226239, nLockTime := 0,
      vin := [{ scriptSig := [.int 0, .scriptNum 42, .chars pszTimestamp] }],
      vout := [{ nValue := 0, scriptPubKey := [] }] }
  let p := { p with genesis.vtx := p.genesis.vtx ++ [txNew] }
  let p := { p with genesis.hashPrevBlock := 0 }
  let p := { p with genesis.hashMerkleRoot := env.BuildMerkleTree p.genesis.vtx }
  let p := { p with
    genesis.nVersion := 1
    genesis.nTime := 1528226239
    genesis.nBits := 0x1e0fffff
    genesis.nNonce := 1244317
    genesis.hashStateRoot :=
      env.h256Touint "e965ffd002cd6ad0e2dc402b8044de833e06b23127ea8c3d80aec91410771495"
    genesis.hashUTXORoot := env.h256Touint env.sha3_rlp_empty }
  let p := { p with consensus.hashGenesisBlock := env.GetHash p.genesis }
  if p.consensus.hashGenesisBlock ≠ mainGenesisHash then
    throw (.assertion "consensus.hashGenesisBlock == uint256(0x000009f6...)")
  if p.genesis.hashMerkleRoot ≠ mainMerkleRoot then
    throw (.assertion "genesis.hashMerkleRoot == uint256(0x7f4ad75b...)")
  let p := { p with vSeeds := p.vSeeds ++ [CDNSSeedData.mk "luxseed1" "45.32.220.58"] }
  let p := { p with vSeeds := p.vSeeds ++ [CDNSSeedData.mk "luxseed2" "45.32.46.81"] }
  let p := { p with
    base58Prefixes.PUBKEY_ADDRESS := [48]
    base58Prefixes.SCRIPT_ADDRESS := [63]
    base58Prefixes.SECRET_KEY := [155]
    base58Prefixes.EXT_PUBLIC_KEY := [0x07, 0x28, 0xA2, 0x4E]
    base58Prefixes.EXT_SECRET_KEY := [0x03, 0xD8, 0xA1, 0xE5]
    bech32_hrp := "bc" }
  let (vFixedSeeds, k) := convertSeed6 env p.vFixedSeeds env.pnSeed6_main k
  let p := { p with vFixedSeeds := vFixedSeeds }
  let p := { p with
    fRequireRPCPassword := true
    fMiningRequiresPeers := true
    fDefaultConsistencyChecks := false
    fRequireStandard := true
    fMineBlocksOnDemand := false
    fSkipProofOfWorkCheck := false
    fTestnetToBeDeprecatedFieldRPC := false
    fHeadersFirstSyncingActive := false
    nPoolMaxTransactions := 3
    strSporkKey := "04a983220ea7a38a7106385003fef77896538a382a0dcc389cc45f3c98751d9af423a097789757556259351198a8aaa628a1fd644c3232678c5845384c744ff8d7"
    strDarksendPoolDummyAddress := "LgcjpYxWa5EB9KCYaRtpPgG8kgiWRvJY38"
    nStartMasternodePayments := 1528226239
    nStakingRoundPeriod := 120
    nStakingInterval := 22
    nStakingMinAge := 360 }
  return (p, k)

/-- The constructor `CTestNetParams::CTestNetParams()`; the class is derived
from `CMainParams`.  The two assertions on the genesis hash and the merkle
root are comments in the source and are not executed. -/
def CTestNetParams (env : Env) (k : Nat) : Except Failure (CChainParams × Nat) := do
  let (p, k) ← CMainParams env k
  let p := { p with dynClass := .CTestNetParams }
  let p := { p with
    consensus.nMajorityEnforceBlockUpgrade := 51
    consensus.nMajorityRejectBlockOutdated := 75
    consensus.nMajorityWindow := 100
    consensus.powLimit := uint256_max >>> 10
    consensus.nPowTargetTimespan := 30 * 60
    consensus.nPowTargetSpacing := 2 * 60
    consensus.fPowAllowMinDifficultyBlocks := false
    consensus.fPowNoRetargeting := false
    consensus.nRuleChangeActivationThreshold := 1368
    consensus.nMinerConfirmationWindow := 1440
    consensus.vDeployments.DEPLOYMENT_SEGWIT.bit := 1
    consensus.vDeployments.DEPLOYMENT_SEGWIT.nStartTime := 1577836800
    consensus.vDeployments.DEPLOYMENT_SEGWIT.nTimeout := 1577836900
    consensus.nLastPOWBlock := 6000000
    networkID := .TESTNET
    strNetworkID := "test"
    pchMessageStart := [0x53, 0x66, 0x55, 0xac]
    vAlertPubKey := env.ParseHex "000010e83b2703ccf322f7dbd62dd5855ac7c10bd055814ce121ba32607d573b8810c02c0582aed05b4deb9c4b77b26d92428c61256cd42774babea0a073b2ed0c9"
    nDefaultPort := 28333
    nMinerThreads := 0
    nMaturity := 10
    nModifierUpdateBlock := 51197 }
  let pszTimestamp := "Lux - Testnet"
  let txNew : CMutableTransaction :=
    { nVersion := 1, nTime := 1527664240, nLockTime := 0,
      vin := [{ scriptSig := [.int 0, .scriptNum 42, .chars pszTimestamp] }],
      vout := [{ nValue := 0, scriptPubKey := [] }] }
  let p := { p with genesis := CBlock.SetNull }
  let p := { p with genesis.vtx := p.genesis.vtx ++ [txNew] }
  let p := { p with genesis.hashPrevBlock := 0 }
  let p := { p with genesis.hashMerkleRoot := env.BuildMerkleTree p.genesis.vtx }
  let p := { p with
    genesis.nVersion := 1
    genesis.nTime := 1527664240
    genesis.nBits := 0x1e0fffff
    genesis.nNonce := 1153266
    genesis.hashStateRoot :=
      env.h256Touint "e965ffd002cd6ad0e2dc402b8044de833e06b23127ea8c3d80aec91410771495"
    genesis.hashUTXORoot := env.h256Touint env.sha3_rlp_empty
    nSplitRewardBlock := 1000 }
  let p := { p with consensus.hashGenesisBlock := env.GetHash p.genesis }
  let p := { p with vFixedSeeds := [] }
  let p := { p with vSeeds := [] }
  let p := { p with
    base58Prefixes.PUBKEY_ADDRESS := [48]
    base58Prefixes.SCRIPT_ADDRESS := [63]
    base58Prefixes.SECRET_KEY := [155]
    base58Prefixes.EXT_PUBLIC_KEY := [0x3a, 0x80, 0x61, 0xa0]
    base58Prefixes.EXT_SECRET_KEY := [0x3a, 0x80, 0x58, 0x37]
    base58Prefixes.EXT_COIN_TYPE := [0x01, 0x00, 0x00, 0x80]
    bech32_hrp := "tb" }
  let (vFixedSeeds, k) := convertSeed6 env p.vFixedSeeds env.pnSeed6_test k
  let p := { p with vFixedSeeds := vFixedSeeds }
  let p := { p with
    fRequireRPCPassword := true
    fMiningRequiresPeers := true
    fDefaultConsistencyChecks := false
    fRequireStandard := true
    fMineBlocksOnDemand := false
    fSkipProofOfWorkCheck := false
    fTestnetToBeDeprecatedFieldRPC := false
    fHeadersFirstSyncingActive := false
    nPoolMaxTransactions := 3
    strSporkKey := "04348C2F50F90267E64FACC65BFDC9D0EB147D090872FB97ABAE92E9A36E6CA60983E28E741F8E7277B11A7479B626AC115BA31463AC48178A5075C5A9319D4A38"
    strDarksendPoolDummyAddress := "LPGq7DZbqZ8Vb3tfLH8Z8VHqeV4fsK68oX"
    nStartMasternodePayments := 1507656633
    nStakingRoundPeriod := 120
    nStakingInterval := 22
    nStakingMinAge := 360
    nFirstSCBlock := 1000 }
  return (p, k)

/-- The constructor `CRegTestParams::CRegTestParams()`; the class is derived
from `CTestNetParams`.  The assertion on the genesis hash is a comment. -/
def CRegTestParams (env : Env) (k : Nat) : Except Failure (CChainParams × Nat) := do
  let (p, k) ← CTestNetParams env k
  let p := { p with dynClass := .CRegTestParams }
  let p := { p with
    networkID := .REGTEST
    strNetworkID := "regtest"
    consensus.nMajorityEnforceBlockUpgrade := 750
    consensus.nMajorityRejectBlockOutdated := 950
    consensus.nMajorityWindow := 1000 }
  let p := { p with
    consensus.powLimit := 0x7fffffffffffffffffffffffffffffffffffffffffffffffffffffffffffffff }
  let p := { p with
    consensus.nPowTargetTimespan := 24 * 60 * 60
    consensus.nPowTargetSpacing := 1 * 60
    consensus.fPowAllowMinDifficultyBlocks := true
    consensus.fPowNoRetargeting := true
    consensus.nRuleChangeActivationThreshold := 108
    consensus.nMinerConfirmationWindow := 144
    consensus.vDeployments.DEPLOYMENT_TESTDUMMY.bit := 28
    consensus.vDeployments.DEPLOYMENT_TESTDUMMY.nStartTime := 0
    consensus.vDeployments.DEPLOYMENT_TESTDUMMY.nTimeout := 999999999999
    consensus.vDeployments.DEPLOYMENT_CSV.bit := 0
    consensus.vDeployments.DEPLOYMENT_CSV.nStartTime := 0
    consensus.vDeployments.DEPLOYMENT_CSV.nTimeout := 999999999999
    consensus.vDeployments.DEPLOYMENT_SEGWIT.bit := 1
    consensus.vDeployments.DEPLOYMENT_SEGWIT.nStartTime := 0
    consensus.vDeployments.DEPLOYMENT_SEGWIT.nTimeout := 999999999999 }
  let p := { p with consensus.powLimit := uint256_max >>> 1 }
  let p := { p with
    pchMessageStart := [0xa1, 0xcf, 0x7e, 0xac]
    nMinerThreads := 1
    nMaturity := 2
    genesis.nTime := 1454124731
    genesis.nBits := 0x207fffff
    genesis.nNonce := 12345 }
  let p := { p with consensus.hashGenesisBlock := env.GetHash p.genesis }
  let p := { p with nDefaultPort := 51476 }
  let p := { p with vFixedSeeds := [] }
  let p := { p with vSeeds := [] }
  let p := { p with
    fRequireRPCPassword := false
    fMiningRequiresPeers := false
    fDefaultConsistencyChecks := true
    fRequireStandard := false
    fMineBlocksOnDemand := true
    fTestnetToBeDeprecatedFieldRPC := false }
  return (p, k)

/-- The constructor `CUnitTestParams::CUnitTestParams()`; the class is derived
from `CMainParams` (and from the interface `CModifiableParams`). -/
def CUnitTestParams (env : Env) (k : Nat) : Except Failure (CChainParams × Nat) := do
  let (p, k) ← CMainParams env k
  let p := { p with dynClass := .CUnitTestParams }
  let p := { p with
    networkID := .UNITTEST
    strNetworkID := "unittest"
    nDefaultPort := 51478 }
  let p := { p with vFixedSeeds := [] }
  let p := { p with vSeeds := [] }
  let p := { p with
    fRequireRPCPassword := false
    fMiningRequiresPeers := false
    fDefaultConsistencyChecks := true
    consensus.fPowAllowMinDifficultyBlocks := false
    fMineBlocksOnDemand := true }
  return (p, k)

/-- The constructor `CSegWitTestnet::CSegWitTestnet()`; the class is derived
from `CChainParams`.  The two assertions on the genesis hash and the merkle
root are comments in the source and are not executed. -/
def CSegWitTestnet (env : Env) (k : Nat) : Except Failure (CChainParams × Nat) := do
  let p := { CChainParams.base with dynClass := .CSegWitTestnet }
  let p := { p with
    networkID := .SEGWITTEST
    strNetworkID := "segwit"
    consensus.nMajorityEnforceBlockUpgrade := 750
    consensus.nMajorityRejectBlockOutdated := 950
    consensus.nMajorityWindow := 1000
    consensus.powLimit := uint256_max >>> 20
    consensus.nPowTargetTimespan := 10 * 60
    consensus.nPowTargetSpacing := 60
    consensus.fPowAllowMinDifficultyBlocks := false
    consensus.fPowNoRetargeting := false
    consensus.nRuleChangeActivationThreshold := 9
    consensus.nMinerConfirmationWindow := 10
    consensus.vDeployments.DEPLOYMENT_SEGWIT.bit := 1
    consensus.vDeployments.DEPLOYMENT_SEGWIT.nStartTime := 1524733200
    consensus.vDeployments.DEPLOYMENT_SEGWIT.nTimeout := 1557187200
    consensus.vDeployments.DEPLOYMENT_CSV.bit := 0
    consensus.vDeployments.DEPLOYMENT_CSV.nStartTime := 0
    consensus.vDeployments.DEPLOYMENT_CSV.nTimeout := 999999999999
    consensus.nLastPOWBlock := 6000000
    nSwitchPhi2Block := 1200
    pchMessageStart := [0xf9, 0x73, 0xc9, 0xa7]
    vAlertPubKey := env.ParseHex "042d13c016ed91528241bcff222989769417eb10cdb679228c91e26e26900eb9fd053cd9f16a9a2894ad5ebbd551be1a4bd23bd55023679be17f0bd3a16e6fbeba"
    nDefaultPort := 25666
    nMaxReorganizationDepth := 100
    nMinerThreads := 0
    nMaturity := 5
    nMasternodeCountDrift := 20
    nModifierUpdateBlock := 615800
    bech32_hrp := "bcst" }
  let pszTimestamp :=
    "Lux - Implemented New PHI Algo PoW/PoS Hybrid - Parallel Masternode - ThankYou - 216k155"
  let strPubKey := "039ec9c09ee245790849f297f8df36c3aab97335ee011250a23d35569fdab891f0"
  let txNew : CMutableTransaction :=
    { nVersion := 1, nTime := 1524645689, nLockTime := 0,
      vin := [{ scriptSig := [.int 0, .scriptNum 42, .chars pszTimestamp] }],
      vout := [{ nValue := 21000000000000,
                 scriptPubKey := [.bytes (env.ParseHex strPubKey), .OP_CHECKSIG] }] }
  let p := { p with genesis.vtx := p.genesis.vtx ++ [txNew] }
  let p := { p with genesis.hashPrevBlock := 0 }
  let p := { p with genesis.hashMerkleRoot := env.BuildMerkleTree p.genesis.vtx }
  let p := { p with
    genesis.nVersion := 1
    genesis.nTime := 1524645689
    genesis.nBits := 0x1e0fffff
    genesis.nNonce := 729147 }
  let p := { p with consensus.hashGenesisBlock := env.GetHash p.genesis }
  let p := { p with
    base58Prefixes.PUBKEY_ADDRESS := [48]
    base58Prefixes.SCRIPT_ADDRESS := [64]
    base58Prefixes.SECRET_KEY := [155]
    base58Prefixes.EXT_PUBLIC_KEY := [0x07, 0x28, 0xA2, 0x4E]
    base58Prefixes.EXT_SECRET_KEY := [0x03, 0xD8, 0xA1, 0xE5]
    fRequireRPCPassword := true
    fMiningRequiresPeers := true
    fDefaultConsistencyChecks := false
    fRequireStandard := true
    fMineBlocksOnDemand := false
    fSkipProofOfWorkCheck := false
    fTestnetToBeDeprecatedFieldRPC := false
    fHeadersFirstSyncingActive := false
    nPoolMaxTransactions := 3
    strSporkKey := "04a983220ea7a38a7106385003fef77896538a382a0dcc389cc45f3c98751d9af423a097789757556259351198a8aaa628a1fd644c3232678c5845384c744ff8d7"
    strDarksendPoolDummyAddress := "LgcjpYxWa5EB9KCYaRtpPgG8kgiWRvJY38"
    nStartMasternodePayments := 1507656633
    nStakingRoundPeriod := 120
    nStakingInterval := 22
    nStakingMinAge := 36 * 60 * 60 }
  return (p, k)

/-! ### The published setters of `CUnitTestParams` -/

/-- The setter `setEnforceBlockUpgradeMajority`. -/
def setEnforceBlockUpgradeMajority (p : CChainParams) (anEnforceBlockUpgradeMajority : Int) :
    CChainParams :=
  { p with consensus.nMajorityEnforceBlockUpgrade := anEnforceBlockUpgradeMajority }

/-- The setter `setRejectBlockOutdatedMajority`. -/
def setRejectBlockOutdatedMajority (p : CChainParams) (anRejectBlockOutdatedMajority : Int) :
    CChainParams :=
  { p with consensus.nMajorityRejectBlockOutdated := anRejectBlockOutdatedMajority }

/-- The setter `setToCheckBlockUpgradeMajority`. -/
def setToCheckBlockUpgradeMajority (p : CChainParams) (anToCheckBlockUpgradeMajority : Int) :
    CChainParams :=
  { p with consensus.nMajorityWindow := anToCheckBlockUpgradeMajority }

/-- The setter `setDefaultConsistencyChecks`. -/
def setDefaultConsistencyChecks (p : CChainParams) (afDefaultConsistencyChecks : Bool) :
    CChainParams :=
  { p with fDefaultConsistencyChecks := afDefaultConsistencyChecks }

/-- The setter `setAllowMinDifficultyBlocks`. -/
def setAllowMinDifficultyBlocks (p : CChainParams) (afAllowMinDifficultyBlocks : Bool) :
    CChainParams :=
  { p with consensus.fPowAllowMinDifficultyBlocks := afAllowMinDifficultyBlocks }

/-- The setter `setSkipProofOfWorkCheck`. -/
def setSkipProofOfWorkCheck (p : CChainParams) (afSkipProofOfWorkCheck : Bool) : CChainParams :=
  { p with fSkipProofOfWorkCheck := afSkipProofOfWorkCheck }

/-! ## The static objects and the selection functions -/

/-- The addresses of the five static objects `mainParams`, `testNetParams`,
`regTestParams`, `unitTestParams` and `segwitParams`. -/
inductive ParamsPtr where
  | mainParams
  | testNetParams
  | regTestParams
  | unitTestParams
  | segwitParams
  deriving DecidableEq

/-- The variables of the file: the five static objects and the pointer
`pCurrentParams`, which is `none` while it is the null pointer. -/
structure Globals where
  mainParams : CChainParams
  testNetParams : CChainParams
  regTestParams : CChainParams
  unitTestParams : CChainParams
  segwitParams : CChainParams
  pCurrentParams : Option ParamsPtr
  deriving DecidableEq

/-- The object at an address. -/
def Globals.deref (g : Globals) : ParamsPtr → CChainParams
  | .mainParams => g.mainParams
  | .testNetParams => g.testNetParams
  | .regTestParams => g.regTestParams
  | .unitTestParams => g.unitTestParams
  | .segwitParams => g.segwitParams

/-- The initialisation of the variables when the program starts: the five
objects are constructed in the order of their definitions and
`pCurrentParams` is the null pointer. -/
def staticInit (env : Env) : Except Failure Globals := do
  let (mainParams, k) ← CMainParams env 0
  let (testNetParams, k) ← CTestNetParams env k
  let (regTestParams, k) ← CRegTestParams env k
  let (unitTestParams, k) ← CUnitTestParams env k
  let (segwitParams, _) ← CSegWitTestnet env k
  return { mainParams := mainParams, testNetParams := testNetParams,
           regTestParams := regTestParams, unitTestParams := unitTestParams,
           segwitParams := segwitParams, pCurrentParams := none }

/-- The function `ModifiableParams()`; the result is the address of
`unitTestParams`. -/
def ModifiableParams (g : Globals) : Except Failure ParamsPtr := do
  if g.pCurrentParams = none then
    throw (.assertion "pCurrentParams")
  if g.pCurrentParams ≠ some .unitTestParams then
    throw (.assertion "pCurrentParams == &unitTestParams")
  return .unitTestParams

/-- The function `Params()`; the result is the address held by
`pCurrentParams`. -/
def Params (g : Globals) : Except Failure ParamsPtr := do
  match g.pCurrentParams with
  | none => throw (.assertion "pCurrentParams")
  | some p => return p

/-- The function `Params(CBaseChainParams::Network network)`; the result is
the address of the static object of the network. -/
def ParamsFor (network : Network) : Except Failure ParamsPtr :=
  match network with
  | .MAIN => return .mainParams
  | .TESTNET => return .testNetParams
  | .REGTEST => return .regTestParams
  | .UNITTEST => return .unitTestParams
  | .SEGWITTEST => return .segwitParams
  | _ => throw (.assertion "false && Unimplemented network")

/-- The function `CreateChainParams(network)`: a new object of the class of
the network, or the exception of the default branch. -/
def CreateChainParams (env : Env) (k : Nat) (network : Network) :
    Except Failure (CChainParams × Nat) :=
  match network with
  | .MAIN => CMainParams env k
  | .TESTNET => CTestNetParams env k
  | .REGTEST => CRegTestParams env k
  | .SEGWITTEST => CSegWitTestnet env k
  | _ => throw (.runtime_error "CreateChainParams: Unknown chain.")

/-- The function `SelectParams(network)`. -/
def SelectParams (env : Env) (g : Globals) (network : Network) : Except Failure Globals := do
  env.SelectBaseParams network
  let p ← ParamsFor network
  return { g with pCurrentParams := some p }

/-- A call that changes the variables of the file: `SelectParams(network)`, or
one of the setters applied to the object that `ModifiableParams()` returns. -/
inductive Call where
  | SelectParams (network : Network)
  | setEnforceBlockUpgradeMajority (v : Int)
  | setRejectBlockOutdatedMajority (v : Int)
  | setToCheckBlockUpgradeMajority (v : Int)
  | setDefaultConsistencyChecks (v : Bool)
  | setAllowMinDifficultyBlocks (v : Bool)
  | setSkipProofOfWorkCheck (v : Bool)
  deriving DecidableEq

/-- The statement `ModifiableParams()->set(v)`: the setter acts on the object
`unitTestParams` when `ModifiableParams()` returns. -/
def viaModifiableParams (g : Globals) (set : CChainParams → CChainParams) :
    Except Failure Globals := do
  let _ ← ModifiableParams g
  return { g with unitTestParams := set g.unitTestParams }

/-- The effect of one call on the variables. -/
def Call.run (env : Env) (g : Globals) : Call → Except Failure Globals
  | .SelectParams network => Lux.SelectParams env g network
  | .setEnforceBlockUpgradeMajority v =>
      viaModifiableParams g (fun p => Lux.setEnforceBlockUpgradeMajority p v)
  | .setRejectBlockOutdatedMajority v =>
      viaModifiableParams g (fun p => Lux.setRejectBlockOutdatedMajority p v)
  | .setToCheckBlockUpgradeMajority v =>
      viaModifiableParams g (fun p => Lux.setToCheckBlockUpgradeMajority p v)
  | .setDefaultConsistencyChecks v =>
      viaModifiableParams g (fun p => Lux.setDefaultConsistencyChecks p v)
  | .setAllowMinDifficultyBlocks v =>
      viaModifiableParams g (fun p => Lux.setAllowMinDifficultyBlocks p v)
  | .setSkipProofOfWorkCheck v =>
      viaModifiableParams g (fun p => Lux.setSkipProofOfWorkCheck p v)

/-- Whether a call is a call of `SelectParams`. -/
def Call.isSelect : Call → Bool
  | .SelectParams _ => true
  | _ => false

/-- The effect of a sequence of calls, the first of the list first; it stops
at the first call that fails. -/
def Call.runAll (env : Env) : Globals → List Call → Except Failure Globals
  | g, [] => .ok g
  | g, c :: cs =>
    match c.run env g with
    | .ok g' => Call.runAll env g' cs
    | .error e => .error e

/-- The states of the running program: the state after the initialisation and
every state that a call which returns leads to. -/
inductive Reachable (env : Env) : Globals → Prop where
  | init (g : Globals) : staticInit env = .ok g → Reachable env g
  | step (g g' : Globals) (c : Call) : Reachable env g → c.run env g = .ok g' → Reachable env g'

/-- The states in which no call of `SelectParams` has occurred: the state after
the initialisation and the states that calls other than `SelectParams` lead
to. -/
inductive ReachableUnselected (env : Env) : Globals → Prop where
  | init (g : Globals) : staticInit env = .ok g → ReachableUnselected env g
  | step (g g' : Globals) (c : Call) : ReachableUnselected env g →
      c.isSelect = false → c.run env g = .ok g' → ReachableUnselected env g'

/-! ## The genesis blocks that the constructors hash

The blocks below are written out member by member; the theorems relate them to
the member `genesis` of the constructed objects. -/

/-- The transaction `txNew` of `CMainParams`. -/
def mainTxNew : CMutableTransaction :=
  { nVersion := 1, nTime := 1528226239, nLockTime := 0,
    vin := [{ scriptSig := [.int 0, .scriptNum 42, .chars "Lux - final test 1"] }],
    vout := [{ nValue := 0, scriptPubKey := [] }] }

/-- The block `genesis` of `CMainParams` when `genesis.GetHash()` is called. -/
def mainGenesis (env : Env) : CBlock :=
  { nVersion := 1, hashPrevBlock := 0, hashMerkleRoot := env.BuildMerkleTree [mainTxNew],
    nTime := 1528226239, nBits := 0x1e0fffff, nNonce := 1244317,
    hashStateRoot :=
      env.h256Touint "e965ffd002cd6ad0e2dc402b8044de833e06b23127ea8c3d80aec91410771495",
    hashUTXORoot := env.h256Touint env.sha3_rlp_empty, vtx := [mainTxNew] }

/-- The transaction `txNew` of `CTestNetParams`. -/
def testnetTxNew : CMutableTransaction :=
  { nVersion := 1, nTime := 1527664240, nLockTime := 0,
    vin := [{ scriptSig := [.int 0, .scriptNum 42, .chars "Lux - Testnet"] }],
    vout := [{ nValue := 0, scriptPubKey := [] }] }

/-- The block `genesis` of `CTestNetParams` when `genesis.GetHash()` is called. -/
def testnetGenesis (env : Env) : CBlock :=
  { nVersion := 1, hashPrevBlock := 0, hashMerkleRoot := env.BuildMerkleTree [testnetTxNew],
    nTime := 1527664240, nBits := 0x1e0fffff, nNonce := 1153266,
    hashStateRoot :=
      env.h256Touint "e965ffd002cd6ad0e2dc402b8044de833e06b23127ea8c3d80aec91410771495",
    hashUTXORoot := env.h256Touint env.sha3_rlp_empty, vtx := [testnetTxNew] }

/-- The block `genesis` of `CRegTestParams` when `genesis.GetHash()` is called:
the block of the test network with another time, difficulty and nonce. -/
def regtestGenesis (env : Env) : CBlock :=
  { testnetGenesis env with nTime := 1454124731, nBits := 0x207fffff, nNonce := 12345 }

/-- The transaction `txNew` of `CSegWitTestnet`. -/
def segwitTxNew (env : Env) : CMutableTransaction :=
  { nVersion := 1, nTime := 1524645689, nLockTime := 0,
    vin := [{ scriptSig := [.int 0, .scriptNum 42, .chars
      "Lux - Implemented New PHI Algo PoW/PoS Hybrid - Parallel Masternode - ThankYou - 216k155"] }],
    vout := [{ nValue := 21000000000000,
               scriptPubKey := [.bytes (env.ParseHex
                 "039ec9c09ee245790849f297f8df36c3aab97335ee011250a23d35569fdab891f0"),
                 .OP_CHECKSIG] }] }

/-- The block `genesis` of `CSegWitTestnet` when `genesis.GetHash()` is called. -/
def segwitGenesis (env : Env) : CBlock :=
  { nVersion := 1, hashPrevBlock := 0, hashMerkleRoot := env.BuildMerkleTree [segwitTxNew env],
    nTime := 1524645689, nBits := 0x1e0fffff, nNonce := 729147,
    hashStateRoot := 0, hashUTXORoot := 0, vtx := [segwitTxNew env] }

/-- The entries that `convertSeed6` makes of the records `data` when `k` calls
of the clock and of the random source came before. -/
def convertedEntries (env : Env) : List SeedSpec6 → Nat → List CAddress
  | [], _ => []
  | d :: rest, k =>
    { service := { ip := d.addr, port := d.port }, nServices := env.NODE_NETWORK,
      nTime := (env.GetTime k - env.GetRand k nOneWeek - nOneWeek) % 2 ^ 64 % 2 ^ 32 } ::
      convertedEntries env rest (k + 1)

/-- An environment for concrete evaluation: the block hash and the merkle root
are the two constants that `CMainParams` asserts, the clock stands at the time
of the main genesis block, the `k`-th random draw is `k`, and there are two
seed records for the main network and one for the test network. -/
def sampleEnv : Env :=
  { GetHash := fun _ => mainGenesisHash
    BuildMerkleTree := fun _ => mainMerkleRoot
    GetTime := fun _ => 1528226239
    GetRand := fun k _ => (k : Int)
    pnSeed6_main :=
      [{ addr := [0, 0, 0, 0, 0, 0, 0, 0, 0, 0, 0xff, 0xff, 45, 32, 220, 58], port := 28666 },
       { addr := [0, 0, 0, 0, 0, 0, 0, 0, 0, 0, 0xff, 0xff, 45, 32, 46, 81], port := 28667 }]
    pnSeed6_test :=
      [{ addr := [0, 0, 0, 0, 0, 0, 0, 0, 0, 0, 0xff, 0xff, 108, 160, 141, 118], port := 28333 }]
    SelectBaseParams := fun _ => .ok ()
    NODE_NETWORK := 1
    ParseHex := fun _ => []
    h256Touint := fun _ => 0
    sha3_rlp_empty := "" }

/-- An environment whose block hash and merkle root are zero for every block. -/
def zeroHashEnv : Env :=
  { sampleEnv with GetHash := fun _ => 0, BuildMerkleTree := fun _ => 0 }

/-- An environment whose clock stands at 0 and whose random draws are all 0. -/
def zeroClockEnv : Env :=
  { sampleEnv with GetTime := fun _ => 0, GetRand := fun _ _ => 0 }

/-! ## Lemmas on the seed converter and the constructors -/

theorem convertSeed6_eq (env : Env) (data : List SeedSpec6) :
    ∀ (L : List CAddress) (k : Nat),
      convertSeed6 env L data k = (L ++ convertedEntries env data k, k + data.length) := by
  induction data with
  | nil => intro L k; simp [convertSeed6, convertedEntries]
  | cons d rest ih =>
    intro L k
    simp only [convertSeed6, convertedEntries, ih, List.append_assoc, List.singleton_append,
      List.length_cons]
    congr 1
    omega

theorem convertedEntries_length (env : Env) (data : List SeedSpec6) :
    ∀ k, (convertedEntries env data k).length = data.length := by
  induction data with
  | nil => intro k; rfl
  | cons d rest ih => intro k; simp [convertedEntries, ih]

theorem convertedEntries_getElem? (env : Env) (data : List SeedSpec6) :
    ∀ (k i : Nat) (d : SeedSpec6), data[i]? = some d →
      (convertedEntries env data k)[i]? = some
        { service := { ip := d.addr, port := d.port }, nServices := env.NODE_NETWORK,
          nTime :=
            (env.GetTime (k + i) - env.GetRand (k + i) nOneWeek - nOneWeek) % 2 ^ 64 % 2 ^ 32 } := by
  induction data with
  | nil => intro k i d h; simp at h
  | cons d0 rest ih =>
    intro k i d h
    cases i with
    | zero =>
      simp only [List.getElem?_cons_zero, Option.some.injEq] at h
      subst h
      simp [convertedEntries]
    | succ j =>
      simp only [List.getElem?_cons_succ] at h
      have := ih (k + 1) j d h
      simp only [convertedEntries, List.getElem?_cons_succ, this]
      have e : k + 1 + j = k + (j + 1) := by omega
      rw [e]

/-- The constructor of the main network either passes both assertions and
returns, or fails one of them. -/
theorem CMainParams_cases (env : Env) (k : Nat) :
    (env.GetHash (mainGenesis env) = mainGenesisHash ∧
      env.BuildMerkleTree [mainTxNew] = mainMerkleRoot ∧
      ∃ p, CMainParams env k = .ok (p, (convertSeed6 env [] env.pnSeed6_main k).2) ∧
        p.genesis = mainGenesis env ∧
        p.consensus.hashGenesisBlock = env.GetHash (mainGenesis env) ∧
        p.dynClass = .CMainParams ∧ p.networkID = .MAIN) ∨
    ((env.GetHash (mainGenesis env) ≠ mainGenesisHash ∨
      env.BuildMerkleTree [mainTxNew] ≠ mainMerkleRoot) ∧
      ∃ e, CMainParams env k = .error (.assertion e)) := by
  simp only [CMainParams, CChainParams.base, CBlock.SetNull, List.nil_append, mainGenesis,
    mainTxNew, bind, Except.bind, pure, Except.pure, throw, throwThe, MonadExceptOf.throw, ne_eq,
    ite_not]
  split_ifs with a b
  · left; exact ⟨a, b, _, rfl, rfl, rfl, rfl, rfl⟩
  · right; exact ⟨Or.inr b, _, rfl⟩
  · right; exact ⟨Or.inl a, _, rfl⟩

theorem CMainParams_ok_inv (env : Env) (k : Nat) (p : CChainParams) (k1 : Nat)
    (h : CMainParams env k = .ok (p, k1)) :
    env.GetHash (mainGenesis env) = mainGenesisHash ∧
      env.BuildMerkleTree [mainTxNew] = mainMerkleRoot ∧
      p.genesis = mainGenesis env ∧ p.consensus.hashGenesisBlock = mainGenesisHash ∧
      p.dynClass = .CMainParams ∧ p.networkID = .MAIN := by
  rcases CMainParams_cases env k with ⟨h1, h2, q, hq, g1, g2, g3, g4⟩ | ⟨_, e, he⟩
  · rw [hq] at h
    injection h with h
    injection h with hp _
    subst hp
    exact ⟨h1, h2, g1, g2.trans h1, g3, g4⟩
  · rw [he] at h
    cases h

theorem CTestNetParams_of_main_ok (env : Env) (k : Nat) (p : CChainParams) (k1 : Nat)
    (h : CMainParams env k = .ok (p, k1)) :
    ∃ q, CTestNetParams env k = .ok (q, (convertSeed6 env [] env.pnSeed6_test k1).2) ∧
      q.genesis = testnetGenesis env ∧
      q.consensus.hashGenesisBlock = env.GetHash (testnetGenesis env) ∧
      q.dynClass = .CTestNetParams ∧ q.networkID = .TESTNET := by
  simp only [CTestNetParams, h, bind, Except.bind, pure, Except.pure]
  exact ⟨_, rfl, rfl, rfl, rfl, rfl⟩

theorem CTestNetParams_of_main_error (env : Env) (k : Nat) (e : Failure)
    (h : CMainParams env k = .error e) : CTestNetParams env k = .error e := by
  simp only [CTestNetParams, h, bind, Except.bind]

theorem CTestNetParams_ok_inv (env : Env) (k : Nat) (q : CChainParams) (k2 : Nat)
    (h : CTestNetParams env k = .ok (q, k2)) :
    (∃ p k1, CMainParams env k = .ok (p, k1)) ∧ q.genesis = testnetGenesis env ∧
      q.consensus.hashGenesisBlock = env.GetHash (testnetGenesis env) ∧
      q.dynClass = .CTestNetParams ∧ q.networkID = .TESTNET := by
  cases hm : CMainParams env k with
  | error e => rw [CTestNetParams_of_main_error env k e hm] at h; cases h
  | ok r =>
    obtain ⟨p, k1⟩ := r
    obtain ⟨q1, hq, g1, g2, g3, g4⟩ := CTestNetParams_of_main_ok env k p k1 hm
    rw [hq] at h
    injection h with h
    injection h with hp _
    subst hp
    exact ⟨⟨p, k1, rfl⟩, g1, g2, g3, g4⟩

theorem CRegTestParams_of_testnet_ok (env : Env) (k : Nat) (p : CChainParams) (k1 : Nat)
    (h : CTestNetParams env k = .ok (p, k1)) :
    ∃ q, CRegTestParams env k = .ok (q, k1) ∧
      q.genesis = { p.genesis with nTime := 1454124731, nBits := 0x207fffff, nNonce := 12345 } ∧
      q.consensus.hashGenesisBlock = env.GetHash q.genesis ∧
      q.dynClass = .CRegTestParams ∧ q.networkID = .REGTEST := by
  simp only [CRegTestParams, h, bind, Except.bind, pure, Except.pure]
  exact ⟨_, rfl, rfl, rfl, rfl, rfl⟩

theorem CRegTestParams_of_testnet_error (env : Env) (k : Nat) (e : Failure)
    (h : CTestNetParams env k = .error e) : CRegTestParams env k = .error e := by
  simp only [CRegTestParams, h, bind, Except.bind]

theorem CRegTestParams_ok_inv (env : Env) (k : Nat) (q : CChainParams) (k2 : Nat)
    (h : CRegTestParams env k = .ok (q, k2)) :
    (∃ p k1, CMainParams env k = .ok (p, k1)) ∧ q.genesis = regtestGenesis env ∧
      q.consensus.hashGenesisBlock = env.GetHash (regtestGenesis env) ∧
      q.dynClass = .CRegTestParams ∧ q.networkID = .REGTEST := by
  cases hm : CTestNetParams env k with
  | error e => rw [CRegTestParams_of_testnet_error env k e hm] at h; cases h
  | ok r =>
    obtain ⟨p, k1⟩ := r
    obtain ⟨hmain, t1, _, _, _⟩ := CTestNetParams_ok_inv env k p k1 hm
    obtain ⟨q1, hq, g1, g2, g3, g4⟩ := CRegTestParams_of_testnet_ok env k p k1 hm
    rw [hq] at h
    injection h with h
    injection h with hp _
    subst hp
    have hg : q1.genesis = regtestGenesis env := by rw [g1, t1]; rfl
    exact ⟨hmain, hg, by rw [g2, hg], g3, g4⟩

theorem CUnitTestParams_of_main_ok (env : Env) (k : Nat) (p : CChainParams) (k1 : Nat)
    (h : CMainParams env k = .ok (p, k1)) :
    ∃ q, CUnitTestParams env k = .ok (q, k1) ∧ q.genesis = p.genesis ∧
      q.consensus.hashGenesisBlock = p.consensus.hashGenesisBlock ∧
      q.dynClass = .CUnitTestParams ∧ q.networkID = .UNITTEST := by
  simp only [CUnitTestParams, h, bind, Except.bind, pure, Except.pure]
  exact ⟨_, rfl, rfl, rfl, rfl, rfl⟩

theorem CUnitTestParams_of_main_error (env : Env) (k : Nat) (e : Failure)
    (h : CMainParams env k = .error e) : CUnitTestParams env k = .error e := by
  simp only [CUnitTestParams, h, bind, Except.bind]

theorem CUnitTestParams_ok_inv (env : Env) (k : Nat) (q : CChainParams) (k2 : Nat)
    (h : CUnitTestParams env k = .ok (q, k2)) :
    (∃ p k1, CMainParams env k = .ok (p, k1)) ∧ q.genesis = mainGenesis env ∧
      q.consensus.hashGenesisBlock = mainGenesisHash ∧
      q.dynClass = .CUnitTestParams ∧ q.networkID = .UNITTEST := by
  cases hm : CMainParams env k with
  | error e => rw [CUnitTestParams_of_main_error env k e hm] at h; cases h
  | ok r =>
    obtain ⟨p, k1⟩ := r
    obtain ⟨_, _, m1, m2, _, _⟩ := CMainParams_ok_inv env k p k1 hm
    obtain ⟨q1, hq, g1, g2, g3, g4⟩ := CUnitTestParams_of_main_ok env k p k1 hm
    rw [hq] at h
    injection h with h
    injection h with hp _
    subst hp
    exact ⟨⟨p, k1, rfl⟩, g1.trans m1, g2.trans m2, g3, g4⟩

theorem CSegWitTestnet_ok (env : Env) (k : Nat) :
    ∃ q, CSegWitTestnet env k = .ok (q, k) ∧ q.genesis = segwitGenesis env ∧
      q.consensus.hashGenesisBlock = env.GetHash (segwitGenesis env) ∧
      q.dynClass = .CSegWitTestnet ∧ q.networkID = .SEGWITTEST :=
  ⟨_, rfl, rfl, rfl, rfl, rfl⟩

theorem CSegWitTestnet_ok_inv (env : Env) (k : Nat) (q : CChainParams) (k2 : Nat)
    (h : CSegWitTestnet env k = .ok (q, k2)) :
    q.genesis = segwitGenesis env ∧
      q.consensus.hashGenesisBlock = env.GetHash (segwitGenesis env) ∧
      q.dynClass = .CSegWitTestnet ∧ q.networkID = .SEGWITTEST := by
  obtain ⟨q1, hq, g1, g2, g3, g4⟩ := CSegWitTestnet_ok env k
  rw [hq] at h
  injection h with h
  injection h with hp _
  subst hp
  exact ⟨g1, g2, g3, g4⟩

/-! ## Lemmas on the selection functions -/

theorem staticInit_objects (env : Env) (g : Globals) (h : staticInit env = .ok g) :
    g.pCurrentParams = none ∧
      ∃ k1 k2 k3 k4 k5, CMainParams env 0 = .ok (g.mainParams, k1) ∧
        CTestNetParams env k1 = .ok (g.testNetParams, k2) ∧
        CRegTestParams env k2 = .ok (g.regTestParams, k3) ∧
        CUnitTestParams env k3 = .ok (g.unitTestParams, k4) ∧
        CSegWitTestnet env k4 = .ok (g.segwitParams, k5) := by
  unfold staticInit at h
  cases h1 : CMainParams env 0 with
  | error e => simp [h1, bind, Except.bind] at h
  | ok r1 =>
    obtain ⟨p1, k1⟩ := r1
    cases h2 : CTestNetParams env k1 with
    | error e => simp [h1, h2, bind, Except.bind] at h
    | ok r2 =>
      obtain ⟨p2, k2⟩ := r2
      cases h3 : CRegTestParams env k2 with
      | error e => simp [h1, h2, h3, bind, Except.bind] at h
      | ok r3 =>
        obtain ⟨p3, k3⟩ := r3
        cases h4 : CUnitTestParams env k3 with
        | error e => simp [h1, h2, h3, h4, bind, Except.bind] at h
        | ok r4 =>
          obtain ⟨p4, k4⟩ := r4
          cases h5 : CSegWitTestnet env k4 with
          | error e => simp [h1, h2, h3, h4, h5, bind, Except.bind] at h
          | ok r5 =>
            obtain ⟨p5, k5⟩ := r5
            simp only [h1, h2, h3, h4, h5, bind, Except.bind, pure, Except.pure,
              Except.ok.injEq] at h
            subst h
            exact ⟨rfl, k1, k2, k3, k4, k5, rfl, h2, h3, h4, h5⟩

theorem staticInit_inv (env : Env) (g : Globals) (h : staticInit env = .ok g) :
    g.pCurrentParams = none ∧ g.mainParams.networkID = .MAIN ∧
      g.testNetParams.networkID = .TESTNET ∧ g.regTestParams.networkID = .REGTEST ∧
      g.unitTestParams.networkID = .UNITTEST ∧ g.segwitParams.networkID = .SEGWITTEST := by
  obtain ⟨h0, k1, k2, k3, k4, k5, h1, h2, h3, h4, h5⟩ := staticInit_objects env g h
  exact ⟨h0, (CMainParams_ok_inv env 0 _ k1 h1).2.2.2.2.2,
    (CTestNetParams_ok_inv env k1 _ k2 h2).2.2.2.2,
    (CRegTestParams_ok_inv env k2 _ k3 h3).2.2.2.2,
    (CUnitTestParams_ok_inv env k3 _ k4 h4).2.2.2.2,
    (CSegWitTestnet_ok_inv env k4 _ k5 h5).2.2.2⟩

theorem SelectParams_ok_inv (env : Env) (g g1 : Globals) (v : Network)
    (h : SelectParams env g v = .ok g1) :
    env.SelectBaseParams v = .ok () ∧
      ∃ ptr, ParamsFor v = .ok ptr ∧ g1 = { g with pCurrentParams := some ptr } := by
  unfold SelectParams at h
  cases hb : env.SelectBaseParams v with
  | error e => simp [hb, bind, Except.bind] at h
  | ok u =>
    cases hp : ParamsFor v with
    | error e => simp [hb, hp, bind, Except.bind] at h
    | ok ptr =>
      simp only [hb, hp, bind, Except.bind, pure, Except.pure, Except.ok.injEq] at h
      exact ⟨rfl, ptr, rfl, h.symm⟩

theorem SelectParams_of_ok (env : Env) (g : Globals) (v : Network) (ptr : ParamsPtr)
    (hb : env.SelectBaseParams v = .ok ()) (hp : ParamsFor v = .ok ptr) :
    SelectParams env g v = .ok { g with pCurrentParams := some ptr } := by
  simp only [SelectParams, hb, hp, bind, Except.bind, pure, Except.pure]

theorem viaModifiableParams_ok_inv (g g1 : Globals) (set : CChainParams → CChainParams)
    (h : viaModifiableParams g set = .ok g1) :
    g.pCurrentParams = some .unitTestParams ∧
      g1 = { g with unitTestParams := set g.unitTestParams } := by
  unfold viaModifiableParams ModifiableParams at h
  simp only [bind, Except.bind, pure, Except.pure, throw, throwThe, MonadExceptOf.throw, ne_eq,
    ite_not] at h
  split_ifs at h with a b
  · simp only [Except.ok.injEq] at h
    exact ⟨b, h.symm⟩

theorem Call.run_setter_inv (env : Env) (g g1 : Globals) (c : Call) (hc : c.isSelect = false)
    (h : c.run env g = .ok g1) :
    g.pCurrentParams = some .unitTestParams ∧ g1.pCurrentParams = g.pCurrentParams ∧
      ∀ ptr, (g1.deref ptr).networkID = (g.deref ptr).networkID := by
  cases c with
  | SelectParams v => simp [Call.isSelect] at hc
  | setEnforceBlockUpgradeMajority v =>
    simp only [Call.run] at h
    obtain ⟨h1, h2⟩ := viaModifiableParams_ok_inv g g1 _ h
    subst h2; exact ⟨h1, rfl, fun ptr => by cases ptr <;> rfl⟩
  | setRejectBlockOutdatedMajority v =>
    simp only [Call.run] at h
    obtain ⟨h1, h2⟩ := viaModifiableParams_ok_inv g g1 _ h
    subst h2; exact ⟨h1, rfl, fun ptr => by cases ptr <;> rfl⟩
  | setToCheckBlockUpgradeMajority v =>
    simp only [Call.run] at h
    obtain ⟨h1, h2⟩ := viaModifiableParams_ok_inv g g1 _ h
    subst h2; exact ⟨h1, rfl, fun ptr => by cases ptr <;> rfl⟩
  | setDefaultConsistencyChecks v =>
    simp only [Call.run] at h
    obtain ⟨h1, h2⟩ := viaModifiableParams_ok_inv g g1 _ h
    subst h2; exact ⟨h1, rfl, fun ptr => by cases ptr <;> rfl⟩
  | setAllowMinDifficultyBlocks v =>
    simp only [Call.run] at h
    obtain ⟨h1, h2⟩ := viaModifiableParams_ok_inv g g1 _ h
    subst h2; exact ⟨h1, rfl, fun ptr => by cases ptr <;> rfl⟩
  | setSkipProofOfWorkCheck v =>
    simp only [Call.run] at h
    obtain ⟨h1, h2⟩ := viaModifiableParams_ok_inv g g1 _ h
    subst h2; exact ⟨h1, rfl, fun ptr => by cases ptr <;> rfl⟩

theorem Call.run_networkID (env : Env) (g g1 : Globals) (c : Call) (h : c.run env g = .ok g1) :
    ∀ ptr, (g1.deref ptr).networkID = (g.deref ptr).networkID := by
  cases hc : c.isSelect with
  | false => exact (Call.run_setter_inv env g g1 c hc h).2.2
  | true =>
    cases c with
    | SelectParams v =>
      obtain ⟨_, ptr, _, h2⟩ := SelectParams_ok_inv env g g1 v h
      subst h2
      intro q; cases q <;> rfl
    | _ => simp [Call.isSelect] at hc

theorem Reachable.networkID (env : Env) (g : Globals) (h : Reachable env g) :
    g.mainParams.networkID = .MAIN ∧ g.testNetParams.networkID = .TESTNET ∧
      g.regTestParams.networkID = .REGTEST ∧ g.unitTestParams.networkID = .UNITTEST ∧
      g.segwitParams.networkID = .SEGWITTEST := by
  induction h with
  | init g h0 => exact (staticInit_inv env g h0).2
  | step g g1 c _ hrun ih =>
    have hn := Call.run_networkID env g g1 c hrun
    exact ⟨(hn .mainParams).trans ih.1, (hn .testNetParams).trans ih.2.1,
      (hn .regTestParams).trans ih.2.2.1, (hn .unitTestParams).trans ih.2.2.2.1,
      (hn .segwitParams).trans ih.2.2.2.2⟩

theorem ReachableUnselected.pCurrentParams (env : Env) (g : Globals)
    (h : ReachableUnselected env g) : g.pCurrentParams = none := by
  induction h with
  | init g h0 => exact (staticInit_inv env g h0).1
  | step g g1 c _ hc hrun ih =>
    have := (Call.run_setter_inv env g g1 c hc hrun).1
    rw [ih] at this
    cases this

theorem Call.runAll_setters (env : Env) (cs : List Call) :
    ∀ (g g1 : Globals), (∀ c ∈ cs, c.isSelect = false) → Call.runAll env g cs = .ok g1 →
      g1.pCurrentParams = g.pCurrentParams ∧
        ∀ ptr, (g1.deref ptr).networkID = (g.deref ptr).networkID := by
  induction cs with
  | nil =>
    intro g g1 _ h
    simp only [Call.runAll, Except.ok.injEq] at h
    subst h
    exact ⟨rfl, fun _ => rfl⟩
  | cons c cs ih =>
    intro g g1 hcs h
    simp only [Call.runAll] at h
    cases hr : c.run env g with
    | error e => simp [hr] at h
    | ok g' =>
      simp only [hr] at h
      obtain ⟨_, hp, hn⟩ := Call.run_setter_inv env g g' c (hcs c (List.mem_cons_self _ _)) hr
      obtain ⟨hp1, hn1⟩ := ih g' g1 (fun c1 hc1 => hcs c1 (List.mem_cons_of_mem _ hc1)) h
      exact ⟨hp1.trans hp, fun ptr => (hn1 ptr).trans (hn ptr)⟩

theorem ParamsFor_networkID (g : Globals) (v : Network) (ptr : ParamsPtr)
    (hg : g.mainParams.networkID = .MAIN ∧ g.testNetParams.networkID = .TESTNET ∧
      g.regTestParams.networkID = .REGTEST ∧ g.unitTestParams.networkID = .UNITTEST ∧
      g.segwitParams.networkID = .SEGWITTEST)
    (h : ParamsFor v = .ok ptr) : (g.deref ptr).networkID = v := by
  cases v <;> simp only [ParamsFor, pure, Except.pure, Except.ok.injEq, throw, throwThe,
    MonadExceptOf.throw, reduceCtorEq] at h <;> subst h
  · exact hg.1
  · exact hg.2.1
  · exact hg.2.2.1
  · exact hg.2.2.2.1
  · exact hg.2.2.2.2


/-! ## Theorems -/

/-- C1: for every hash and every `nBits` whose compact decoding yields a
target `T` that is non-zero, not negative and not overflowing,
`CheckProof(hash, nBits)` returns true if and only if `hash ≤ T`.  It holds
for every decoder, in particular for the standard one. -/
theorem CheckProof_true_iff_le_target (setCompact : Nat → CompactResult) (hash nBits : Nat)
    (hneg : (setCompact nBits).fNegative = false)
    (hovf : (setCompact nBits).fOverflow = false)
    (hnz : (setCompact nBits).target ≠ 0) :
    CheckProof setCompact hash nBits = true ↔ hash ≤ (setCompact nBits).target := by
  simp [CheckProof, hneg, hovf, hnz]

/-- Witness of C1 at the genesis difficulty `0x1e0fffff`, standard decoder,
and a hash just below the target. -/
theorem CheckProof_true_iff_le_target_witness :
    (SetCompact 0x1e0fffff).target = 0x0fffff * 256 ^ 27 ∧
    (CheckProof SetCompact (0x0fffff * 256 ^ 27 - 1) 0x1e0fffff = true ↔
      0x0fffff * 256 ^ 27 - 1 ≤ (SetCompact 0x1e0fffff).target) :=
  ⟨by decide,
   CheckProof_true_iff_le_target SetCompact (0x0fffff * 256 ^ 27 - 1) 0x1e0fffff
    (by decide) (by decide) (by decide)⟩

/-- C2: for every `nBits` whose compact decoding sets the negative flag, sets
the overflow flag, or yields target 0, `CheckProof(hash, nBits)` is `false`
for every hash; `CheckProof` is a total function into `Bool`, so no error is
raised. -/
theorem CheckProof_false_of_bad_target (setCompact : Nat → CompactResult) (hash nBits : Nat)
    (h : (setCompact nBits).fNegative = true ∨ (setCompact nBits).fOverflow = true ∨
      (setCompact nBits).target = 0) :
    CheckProof setCompact hash nBits = false := by
  rcases h with h | h | h <;> simp [CheckProof, h]

/-- Witness of C2: `0x04923456` has the sign bit of the mantissa set, and the
all-zero hash is rejected. -/
theorem CheckProof_false_of_bad_target_witness :
    (SetCompact 0x04923456).fNegative = true ∧ CheckProof SetCompact 0 0x04923456 = false :=
  ⟨by decide, CheckProof_false_of_bad_target SetCompact 0 0x04923456 (Or.inl (by decide))⟩

/-- C3 (counterexample): the test network is built although its computed
genesis hash and merkle root differ from the constants of the assertions that
its constructor has in comments, and so is the SegWit test network: with the
block hash and the merkle root that are constantly the two constants of the
main network the constructor `CTestNetParams` returns, and with the ones that
are constantly zero the constructor `CSegWitTestnet` returns. -/
theorem testnet_segwit_built_with_other_genesis :
    (∃ p k, CTestNetParams sampleEnv 0 = .ok (p, k) ∧
      p.consensus.hashGenesisBlock = sampleEnv.GetHash p.genesis ∧
      p.genesis.hashMerkleRoot = sampleEnv.BuildMerkleTree p.genesis.vtx ∧
      p.consensus.hashGenesisBlock ≠ testnetGenesisHash ∧
      p.genesis.hashMerkleRoot ≠ testnetMerkleRoot) ∧
    (∃ p k, CSegWitTestnet zeroHashEnv 0 = .ok (p, k) ∧
      p.consensus.hashGenesisBlock = zeroHashEnv.GetHash p.genesis ∧
      p.genesis.hashMerkleRoot = zeroHashEnv.BuildMerkleTree p.genesis.vtx ∧
      p.consensus.hashGenesisBlock ≠ segwitGenesisHash ∧
      p.genesis.hashMerkleRoot ≠ segwitMerkleRoot) :=
  ⟨⟨_, _, rfl, rfl, rfl, by decide, by decide⟩, ⟨_, _, rfl, rfl, rfl, by decide, by decide⟩⟩

/-- C3 (amended): only the constructor of the main network asserts its genesis
hash and merkle root.  For every block hash and merkle function,
`CMainParams` returns exactly when the hash of its genesis block and the
merkle root of its transaction equal the two constants, and fails an assertion
otherwise; `CTestNetParams` returns exactly when the inherited `CMainParams`
does and fails with the same failure, its own genesis hash and merkle root
being computed and not compared; `CSegWitTestnet` always returns, its values
being computed and not compared. -/
theorem genesis_assertions_by_network (env : Env) (k : Nat) :
    ((∃ r, CMainParams env k = .ok r) ↔
      (env.GetHash (mainGenesis env) = mainGenesisHash ∧
        env.BuildMerkleTree [mainTxNew] = mainMerkleRoot)) ∧
    (¬ (env.GetHash (mainGenesis env) = mainGenesisHash ∧
        env.BuildMerkleTree [mainTxNew] = mainMerkleRoot) →
      ∃ e, CMainParams env k = .error (.assertion e)) ∧
    (∀ p k1, CMainParams env k = .ok (p, k1) →
      p.genesis = mainGenesis env ∧
      p.consensus.hashGenesisBlock = env.GetHash p.genesis ∧
      p.genesis.hashMerkleRoot = env.BuildMerkleTree p.genesis.vtx ∧
      p.consensus.hashGenesisBlock = mainGenesisHash ∧
      p.genesis.hashMerkleRoot = mainMerkleRoot) ∧
    ((∃ r, CTestNetParams env k = .ok r) ↔ (∃ r, CMainParams env k = .ok r)) ∧
    (∀ e, CMainParams env k = .error e → CTestNetParams env k = .error e) ∧
    (∀ q k2, CTestNetParams env k = .ok (q, k2) →
      q.genesis = testnetGenesis env ∧
      q.consensus.hashGenesisBlock = env.GetHash q.genesis ∧
      q.genesis.hashMerkleRoot = env.BuildMerkleTree q.genesis.vtx) ∧
    (∃ q, CSegWitTestnet env k = .ok (q, k) ∧
      q.genesis = segwitGenesis env ∧
      q.consensus.hashGenesisBlock = env.GetHash q.genesis ∧
      q.genesis.hashMerkleRoot = env.BuildMerkleTree q.genesis.vtx) := by
  refine ⟨⟨?_, ?_⟩, ?_, ?_, ⟨?_, ?_⟩, ?_, ?_, ?_⟩
  · rintro ⟨⟨p, k1⟩, h⟩
    obtain ⟨h1, h2, _⟩ := CMainParams_ok_inv env k p k1 h
    exact ⟨h1, h2⟩
  · rintro ⟨h1, h2⟩
    rcases CMainParams_cases env k with ⟨_, _, p, hp, _⟩ | ⟨hne, _⟩
    · exact ⟨_, hp⟩
    · rcases hne with hne | hne
      · exact absurd h1 hne
      · exact absurd h2 hne
  · intro hn
    rcases CMainParams_cases env k with ⟨h1, h2, _⟩ | ⟨_, e, he⟩
    · exact absurd ⟨h1, h2⟩ hn
    · exact ⟨e, he⟩
  · intro p k1 h
    obtain ⟨h1, h2, g1, g2, _, _⟩ := CMainParams_ok_inv env k p k1 h
    refine ⟨g1, ?_, ?_, g2, ?_⟩
    · rw [g2, g1, h1]
    · rw [g1]; rfl
    · rw [g1]; exact h2
  · rintro ⟨⟨q, k2⟩, h⟩
    obtain ⟨⟨p, k1, hp⟩, _⟩ := CTestNetParams_ok_inv env k q k2 h
    exact ⟨_, hp⟩
  · rintro ⟨⟨p, k1⟩, h⟩
    obtain ⟨q, hq, _⟩ := CTestNetParams_of_main_ok env k p k1 h
    exact ⟨_, hq⟩
  · intro e h
    exact CTestNetParams_of_main_error env k e h
  · intro q k2 h
    obtain ⟨_, g1, g2, _, _⟩ := CTestNetParams_ok_inv env k q k2 h
    refine ⟨g1, ?_, ?_⟩
    · rw [g2, g1]
    · rw [g1]; rfl
  · obtain ⟨q, hq, g1, g2, _, _⟩ := CSegWitTestnet_ok env k
    refine ⟨q, hq, g1, ?_, ?_⟩
    · rw [g2, g1]
    · rw [g1]; rfl

/-- C4 (the code at the failing input): in the state after the initialisation
the table of `Checkpoints()` of each of the five objects maps height 0 to the
hash zero, while the genesis hash of the objects of the main network and of
the unit tests is the non-zero constant that `CMainParams` asserts, and the
genesis hash of the other three objects is the hash of their genesis block; so
height 0 is mapped to the genesis hash for none of the first two and for the
others only when the block hash is zero. -/
theorem checkpoint_height_zero_is_hash_zero (env : Env) (g : Globals)
    (h : staticInit env = .ok g) :
    (∀ ptr, (g.deref ptr).checkpointHash 0 = some 0) ∧
    g.mainParams.consensus.hashGenesisBlock = mainGenesisHash ∧
    g.unitTestParams.consensus.hashGenesisBlock = mainGenesisHash ∧
    g.mainParams.checkpointHash 0 ≠ some g.mainParams.consensus.hashGenesisBlock ∧
    g.unitTestParams.checkpointHash 0 ≠ some g.unitTestParams.consensus.hashGenesisBlock ∧
    g.testNetParams.consensus.hashGenesisBlock = env.GetHash (testnetGenesis env) ∧
    g.regTestParams.consensus.hashGenesisBlock = env.GetHash (regtestGenesis env) ∧
    g.segwitParams.consensus.hashGenesisBlock = env.GetHash (segwitGenesis env) := by
  obtain ⟨_, k1, k2, k3, k4, k5, h1, h2, h3, h4, h5⟩ := staticInit_objects env g h
  obtain ⟨_, _, _, m2, m3, _⟩ := CMainParams_ok_inv env 0 _ k1 h1
  obtain ⟨_, _, t2, t3, _⟩ := CTestNetParams_ok_inv env k1 _ k2 h2
  obtain ⟨_, _, r2, r3, _⟩ := CRegTestParams_ok_inv env k2 _ k3 h3
  obtain ⟨_, _, u2, u3, _⟩ := CUnitTestParams_ok_inv env k3 _ k4 h4
  obtain ⟨_, s2, s3, _⟩ := CSegWitTestnet_ok_inv env k4 _ k5 h5
  have cm : g.mainParams.checkpointHash 0 = some 0 := by
    simp only [CChainParams.checkpointHash, CChainParams.Checkpoints, m3]; rfl
  have cu : g.unitTestParams.checkpointHash 0 = some 0 := by
    simp only [CChainParams.checkpointHash, CChainParams.Checkpoints, u3]; rfl
  refine ⟨?_, m2, u2, ?_, ?_, t2, r2, s2⟩
  · intro ptr
    cases ptr
    · exact cm
    · simp only [Globals.deref, CChainParams.checkpointHash, CChainParams.Checkpoints, t3]; rfl
    · simp only [Globals.deref, CChainParams.checkpointHash, CChainParams.Checkpoints, r3]; rfl
    · exact cu
    · simp only [Globals.deref, CChainParams.checkpointHash, CChainParams.Checkpoints, s3]; rfl
  · rw [cm, m2]; decide
  · rw [cu, u2]; decide

/-- Witness of C4 at `sampleEnv`: the objects exist, the table of the main
network maps height 0 to zero, and its genesis hash is the asserted
constant. -/
theorem checkpoint_height_zero_is_hash_zero_witness :
    ∃ g, staticInit sampleEnv = .ok g ∧ g.mainParams.checkpointHash 0 = some 0 ∧
      g.mainParams.consensus.hashGenesisBlock =
        0x000009f632929508d7d1e3530e2a9f795824074d4c0f3cd670acb8ecb424de87 :=
  ⟨_, rfl, (checkpoint_height_zero_is_hash_zero sampleEnv _ rfl).1 .mainParams,
    (checkpoint_height_zero_is_hash_zero sampleEnv _ rfl).2.1⟩

/-- C5 (the code at the failing input): `CreateChainParams` has no branch for
`UNITTEST`; for it, as for `MAX_NETWORK_TYPES`, the default branch throws the
runtime error "Unknown chain", whatever the environment.  For the other four
networks the result is that of the constructor of the class. -/
theorem CreateChainParams_UNITTEST_throws (env : Env) (k : Nat) :
    CreateChainParams env k .UNITTEST =
      .error (.runtime_error "CreateChainParams: Unknown chain.") ∧
    CreateChainParams env k .MAX_NETWORK_TYPES =
      .error (.runtime_error "CreateChainParams: Unknown chain.") ∧
    CreateChainParams env k .MAIN = CMainParams env k ∧
    CreateChainParams env k .TESTNET = CTestNetParams env k ∧
    CreateChainParams env k .REGTEST = CRegTestParams env k ∧
    CreateChainParams env k .SEGWITTEST = CSegWitTestnet env k ∧
    ParamsFor .UNITTEST = .ok .unitTestParams :=
  ⟨rfl, rfl, rfl, rfl, rfl, rfl, rfl⟩

/-- C6: `Params()` fails its assertion in every state in which no call of
`SelectParams` has occurred, and in every state reached after a call
`SelectParams(v)` that returned, also after later calls of the setters, it
returns the address of the object of `v`, whose `networkID` is `v`. -/
theorem Params_fails_unselected_returns_selected (env : Env) :
    (∀ g, ReachableUnselected env g → Params g = .error (.assertion "pCurrentParams")) ∧
    (∀ g v g1 cs g2, Reachable env g → SelectParams env g v = .ok g1 →
      (∀ c ∈ cs, c.isSelect = false) → Call.runAll env g1 cs = .ok g2 →
      ∃ ptr, ParamsFor v = .ok ptr ∧ Params g2 = .ok ptr ∧ (g2.deref ptr).networkID = v) := by
  constructor
  · intro g hg
    have h0 := ReachableUnselected.pCurrentParams env g hg
    simp only [Params, h0, throw, throwThe, MonadExceptOf.throw]
  · intro g v g1 cs g2 hg hsel hcs hrun
    obtain ⟨_, ptr, hptr, hg1⟩ := SelectParams_ok_inv env g g1 v hsel
    obtain ⟨hp, hn⟩ := Call.runAll_setters env cs g1 g2 hcs hrun
    have hreach : Reachable env g1 := Reachable.step g g1 (.SelectParams v) hg hsel
    have hid := ParamsFor_networkID g1 v ptr (Reachable.networkID env g1 hreach) hptr
    refine ⟨ptr, hptr, ?_, (hn ptr).trans hid⟩
    have hp2 : g2.pCurrentParams = some ptr := by rw [hp, hg1]
    simp only [Params, hp2, pure, Except.pure]

/-- Witness of C6 at `sampleEnv`: `Params()` fails after the initialisation,
and after `SelectParams(UNITTEST)` followed by a call of a setter it returns
the object of the unit tests. -/
theorem Params_fails_unselected_returns_selected_witness :
    ∃ g g1 g2, staticInit sampleEnv = .ok g ∧
      Params g = .error (.assertion "pCurrentParams") ∧
      SelectParams sampleEnv g .UNITTEST = .ok g1 ∧
      Call.runAll sampleEnv g1 [.setSkipProofOfWorkCheck true] = .ok g2 ∧
      ∃ ptr, ParamsFor .UNITTEST = .ok ptr ∧ Params g2 = .ok ptr ∧
        (g2.deref ptr).networkID = .UNITTEST :=
  ⟨_, _, _, rfl,
    (Params_fails_unselected_returns_selected sampleEnv).1 _ (ReachableUnselected.init _ rfl),
    rfl, rfl,
    (Params_fails_unselected_returns_selected sampleEnv).2 _ .UNITTEST _
      [.setSkipProofOfWorkCheck true] _ (Reachable.init _ rfl) rfl (by decide) rfl⟩

/-- C7 (counterexample): after the initialisation with `sampleEnv`,
`SelectParams(MAIN)` returns and makes `mainParams` the active object; a
further call `SelectParams(TESTNET)` returns as well and makes `testNetParams`
the active object. -/
theorem second_SelectParams_reassigns :
    ∃ g g1 g2, staticInit sampleEnv = .ok g ∧
      SelectParams sampleEnv g .MAIN = .ok g1 ∧ g1.pCurrentParams = some .mainParams ∧
      SelectParams sampleEnv g1 .TESTNET = .ok g2 ∧ g2.pCurrentParams = some .testNetParams :=
  ⟨_, _, _, rfl, rfl, rfl, rfl, rfl⟩

/-- C7 (amended): the selection is not a one-shot write.  In every state, also
one in which a selection has succeeded before, `SelectParams(v)` for one of
the five networks returns whenever `SelectBaseParams(v)` returns, and it
assigns the address of the object of `v` to `pCurrentParams` and changes
nothing else. -/
theorem SelectParams_assigns_in_every_state (env : Env) (g : Globals) (v : Network)
    (hv : v ≠ .MAX_NETWORK_TYPES) (hb : env.SelectBaseParams v = .ok ()) :
    ∃ ptr, ParamsFor v = .ok ptr ∧
      SelectParams env g v = .ok { g with pCurrentParams := some ptr } := by
  cases v
  · exact ⟨.mainParams, rfl, SelectParams_of_ok env g _ _ hb rfl⟩
  · exact ⟨.testNetParams, rfl, SelectParams_of_ok env g _ _ hb rfl⟩
  · exact ⟨.regTestParams, rfl, SelectParams_of_ok env g _ _ hb rfl⟩
  · exact ⟨.unitTestParams, rfl, SelectParams_of_ok env g _ _ hb rfl⟩
  · exact ⟨.segwitParams, rfl, SelectParams_of_ok env g _ _ hb rfl⟩
  · exact absurd rfl hv

/-- Witness of C7 (amended): in the state in which `MAIN` is selected the call
`SelectParams(TESTNET)` returns and assigns `testNetParams`. -/
theorem SelectParams_assigns_in_every_state_witness :
    ∃ g g1, staticInit sampleEnv = .ok g ∧ SelectParams sampleEnv g .MAIN = .ok g1 ∧
      ∃ ptr, ParamsFor .TESTNET = .ok ptr ∧
        SelectParams sampleEnv g1 .TESTNET = .ok { g1 with pCurrentParams := some ptr } :=
  ⟨_, _, rfl, rfl,
    SelectParams_assigns_in_every_state sampleEnv _ .TESTNET (by decide) rfl⟩

/-- C8: selecting is idempotent.  When `SelectParams(v)` has returned, a
second call `SelectParams(v)` returns and leaves the state as it is; the
look-up `Params(v)` gives the same address both times, which is the one that
`Params()` returns; the object at it is the one from before the selection, so
the genesis hash, the merkle root and the hash of the checkpoint at height 0
read after the second call are those read after the first. -/
theorem SelectParams_idempotent (env : Env) (g g1 : Globals) (v : Network)
    (h : SelectParams env g v = .ok g1) :
    SelectParams env g1 v = .ok g1 ∧
    ∃ ptr, ParamsFor v = .ok ptr ∧ Params g1 = .ok ptr ∧ g1.deref ptr = g.deref ptr ∧
      ∀ g2, SelectParams env g1 v = .ok g2 →
        Params g2 = .ok ptr ∧
        (g2.deref ptr).consensus.hashGenesisBlock = (g1.deref ptr).consensus.hashGenesisBlock ∧
        (g2.deref ptr).genesis.hashMerkleRoot = (g1.deref ptr).genesis.hashMerkleRoot ∧
        (g2.deref ptr).checkpointHash 0 = (g1.deref ptr).checkpointHash 0 := by
  obtain ⟨hb, ptr, hptr, hg1⟩ := SelectParams_ok_inv env g g1 v h
  have h2 : SelectParams env g1 v = .ok g1 := by
    rw [SelectParams_of_ok env g1 v ptr hb hptr, hg1]
  have hP : Params g1 = .ok ptr := by
    subst hg1
    simp only [Params, pure, Except.pure]
  refine ⟨h2, ptr, hptr, hP, ?_, ?_⟩
  · subst hg1
    cases ptr <;> rfl
  · intro g2 hg2
    rw [h2] at hg2
    injection hg2 with hg2
    subst hg2
    exact ⟨hP, rfl, rfl, rfl⟩

/-- Witness of C8 at `sampleEnv` and the SegWit test network. -/
theorem SelectParams_idempotent_witness :
    ∃ g g1, staticInit sampleEnv = .ok g ∧ SelectParams sampleEnv g .SEGWITTEST = .ok g1 ∧
      SelectParams sampleEnv g1 .SEGWITTEST = .ok g1 ∧ Params g1 = .ok .segwitParams :=
  ⟨_, _, rfl, rfl, (SelectParams_idempotent sampleEnv _ _ .SEGWITTEST rfl).1, rfl⟩

/-- C9: for every list of `n` seed records, `convertSeed6` applied to an empty
output vector produces exactly `n` entries, and the `i`-th entry has the
address and the port of the `i`-th record and the service flag
`NODE_NETWORK`. -/
theorem convertSeed6_entries (env : Env) (data : List SeedSpec6) (k : Nat) :
    (convertSeed6 env [] data k).1.length = data.length ∧
    (∀ (i : Nat) (d : SeedSpec6), data[i]? = some d →
      ∃ a : CAddress, (convertSeed6 env [] data k).1[i]? = some a ∧
        a.service.ip = d.addr ∧ a.service.port = d.port ∧ a.nServices = env.NODE_NETWORK) ∧
    (convertSeed6 env [] data k).1.map (fun a => (a.service.ip, a.service.port, a.nServices)) =
      data.map (fun d => (d.addr, d.port, env.NODE_NETWORK)) := by
  rw [convertSeed6_eq]
  simp only [List.nil_append]
  refine ⟨convertedEntries_length env data k, ?_, ?_⟩
  · intro i d hd
    exact ⟨_, convertedEntries_getElem? env data k i d hd, rfl, rfl, rfl⟩
  · clear * -
    induction data generalizing k with
    | nil => rfl
    | cons d rest ih => simp only [convertedEntries, List.map_cons, ih]

/-- C10 (counterexample): with the clock at 0 and the random draw 0 the entry
made of the first record has `nTime = 4294362496`, which is `2^32 - 604800`:
it is not `0 - 0 - 604800`, and it is not at most `0 - 604800`, one week
before the clock value. -/
theorem convertSeed6_nTime_wraps_at_clock_zero :
    zeroClockEnv.GetTime 0 = 0 ∧ zeroClockEnv.GetRand 0 nOneWeek = 0 ∧
    ∃ a : CAddress, (convertSeed6 zeroClockEnv [] zeroClockEnv.pnSeed6_main 0).1[0]? = some a ∧
      a.nTime = 4294362496 ∧ a.nTime ≠ 0 - 0 - 604800 ∧ ¬ a.nTime ≤ 0 - 604800 :=
  ⟨rfl, rfl, _, rfl, by decide, by decide, by decide⟩

/-- C10 (amended): for every seed record, every value `now` of the clock and
every random draw `r` of its iteration with `0 ≤ r < 604800` (one week), the
entry made of the record has `nTime = (now - r - 604800) mod 2^32`, the member
being an unsigned 32-bit number; whenever `0 ≤ now - r - 604800 < 2^32` this is
`nTime = now - r - 604800`, and therefore
`now - 2 weeks ≤ nTime ≤ now - 1 week`. -/
theorem convertSeed6_nTime (env : Env) (data : List SeedSpec6) (k i : Nat) (d : SeedSpec6)
    (now r : Int) (hd : data[i]? = some d) (hnow : env.GetTime (k + i) = now)
    (hr : env.GetRand (k + i) nOneWeek = r) (h0 : 0 ≤ r) (h1 : r < 604800) :
    ∃ a : CAddress, (convertSeed6 env [] data k).1[i]? = some a ∧
      a.nTime = (now - r - 604800) % 2 ^ 32 ∧
      (0 ≤ now - r - 604800 → now - r - 604800 < 2 ^ 32 →
        a.nTime = now - r - 604800 ∧
        now - 2 * 604800 ≤ a.nTime ∧ a.nTime ≤ now - 604800) := by
  subst hnow hr
  rw [convertSeed6_eq]
  simp only [List.nil_append]
  have hw : nOneWeek = 604800 := by decide
  have e : (env.GetTime (k + i) - env.GetRand (k + i) nOneWeek - nOneWeek) % 2 ^ 64 % 2 ^ 32 =
      (env.GetTime (k + i) - env.GetRand (k + i) nOneWeek - 604800) % 2 ^ 32 := by
    rw [hw]
    exact Int.emod_emod_of_dvd _ (by norm_num)
  refine ⟨_, convertedEntries_getElem? env data k i d hd, e, ?_⟩
  intro hlo hhi
  have e2 : (env.GetTime (k + i) - env.GetRand (k + i) nOneWeek - nOneWeek) % 2 ^ 64 % 2 ^ 32 =
      env.GetTime (k + i) - env.GetRand (k + i) nOneWeek - 604800 := by
    rw [e]
    exact Int.emod_eq_of_lt hlo hhi
  refine ⟨e2, ?_, ?_⟩
  · show _ ≤ (env.GetTime (k + i) - env.GetRand (k + i) nOneWeek - nOneWeek) % 2 ^ 64 % 2 ^ 32
    rw [e2]; omega
  · show (env.GetTime (k + i) - env.GetRand (k + i) nOneWeek - nOneWeek) % 2 ^ 64 % 2 ^ 32 ≤ _
    rw [e2]; omega

/-- Witness of C10 (amended): the second record of `sampleEnv`, with the clock
at 1528226239 and the draw 1. -/
theorem convertSeed6_nTime_witness :
    ∃ a : CAddress, (convertSeed6 sampleEnv [] sampleEnv.pnSeed6_main 0).1[1]? = some a ∧
      a.nTime = 1528226239 - 1 - 604800 ∧
      1528226239 - 2 * 604800 ≤ a.nTime ∧ a.nTime ≤ 1528226239 - 604800 := by
  obtain ⟨a, ha, _, h⟩ := convertSeed6_nTime sampleEnv sampleEnv.pnSeed6_main 0 1
    { addr := [0, 0, 0, 0, 0, 0, 0, 0, 0, 0, 0xff, 0xff, 45, 32, 46, 81], port := 28667 }
    1528226239 1 rfl rfl rfl (by decide) (by decide)
  exact ⟨a, ha, h (by decide) (by decide)⟩

/-! ## Lemmas on the members that the constructors assign -/

theorem CMainParams_fields (env : Env) (k : Nat) (p : CChainParams) (k1 : Nat)
    (h : CMainParams env k = .ok (p, k1)) :
    p.consensus.vDeployments.DEPLOYMENT_SEGWIT =
        { bit := 1, nStartTime := 1528234050, nTimeout := 1528372800 } ∧
      p.consensus.vDeployments.DEPLOYMENT_CSV =
        { bit := 0, nStartTime := 1528234050, nTimeout := 1528372800 } ∧
      p.consensus.nRuleChangeActivationThreshold = 1026 ∧
      p.consensus.nMinerConfirmationWindow = 1080 ∧
      p.consensus.nPowTargetTimespan = 60 ∧ p.consensus.nPowTargetSpacing = 60 ∧
      p.consensus.powLimit = uint256_max >>> 20 ∧
      p.nDefaultPort = 28666 ∧ p.bech32_hrp = "bc" ∧ p.base58Prefixes.PUBKEY_ADDRESS = [48] ∧
      p.vSeeds = [CDNSSeedData.mk "luxseed1" "45.32.220.58",
        CDNSSeedData.mk "luxseed2" "45.32.46.81"] ∧
      p.vFixedSeeds = convertedEntries env env.pnSeed6_main k := by
  simp only [CMainParams, CChainParams.base, CBlock.SetNull, List.nil_append, bind, Except.bind,
    pure, Except.pure, throw, throwThe, MonadExceptOf.throw, ne_eq, ite_not] at h
  split_ifs at h
  simp only [Except.ok.injEq, Prod.mk.injEq] at h
  obtain ⟨hp, _⟩ := h
  subst hp
  refine ⟨rfl, rfl, rfl, rfl, rfl, rfl, rfl, rfl, rfl, rfl, rfl, ?_⟩
  simp only [convertSeed6_eq, List.nil_append]

theorem CTestNetParams_fields (env : Env) (k : Nat) (p q : CChainParams) (k1 k2 : Nat)
    (h : CMainParams env k = .ok (p, k1)) (h2 : CTestNetParams env k = .ok (q, k2)) :
    q.consensus.vDeployments.DEPLOYMENT_SEGWIT =
        { bit := 1, nStartTime := 1577836800, nTimeout := 1577836900 } ∧
      q.consensus.vDeployments.DEPLOYMENT_CSV = p.consensus.vDeployments.DEPLOYMENT_CSV ∧
      q.consensus.nRuleChangeActivationThreshold = 1368 ∧
      q.consensus.nMinerConfirmationWindow = 1440 ∧
      q.consensus.nPowTargetTimespan = 30 * 60 ∧ q.consensus.nPowTargetSpacing = 2 * 60 ∧
      q.consensus.powLimit = uint256_max >>> 10 ∧
      q.vSeeds = [] ∧ q.vFixedSeeds = convertedEntries env env.pnSeed6_test k1 := by
  simp only [CTestNetParams, h, bind, Except.bind, pure, Except.pure, Except.ok.injEq,
    Prod.mk.injEq] at h2
  obtain ⟨hq, _⟩ := h2
  subst hq
  refine ⟨rfl, rfl, rfl, rfl, rfl, rfl, rfl, rfl, ?_⟩
  simp only [convertSeed6_eq, List.nil_append]

theorem CRegTestParams_fields (env : Env) (k : Nat) (p q : CChainParams) (k1 k2 : Nat)
    (h : CTestNetParams env k = .ok (p, k1)) (h2 : CRegTestParams env k = .ok (q, k2)) :
    q.consensus.vDeployments.DEPLOYMENT_TESTDUMMY =
        { bit := 28, nStartTime := 0, nTimeout := 999999999999 } ∧
      q.consensus.vDeployments.DEPLOYMENT_CSV =
        { bit := 0, nStartTime := 0, nTimeout := 999999999999 } ∧
      q.consensus.vDeployments.DEPLOYMENT_SEGWIT =
        { bit := 1, nStartTime := 0, nTimeout := 999999999999 } ∧
      q.consensus.nRuleChangeActivationThreshold = 108 ∧
      q.consensus.nMinerConfirmationWindow = 144 ∧
      q.consensus.powLimit = uint256_max >>> 1 ∧
      q.vSeeds = [] ∧ q.vFixedSeeds = [] := by
  simp only [CRegTestParams, h, bind, Except.bind, pure, Except.pure, Except.ok.injEq,
    Prod.mk.injEq] at h2
  obtain ⟨hq, _⟩ := h2
  subst hq
  exact ⟨rfl, rfl, rfl, rfl, rfl, rfl, rfl, rfl⟩

theorem CUnitTestParams_fields (env : Env) (k : Nat) (p q : CChainParams) (k1 k2 : Nat)
    (h : CMainParams env k = .ok (p, k1)) (h2 : CUnitTestParams env k = .ok (q, k2)) :
    q.consensus.vDeployments = p.consensus.vDeployments ∧
      q.consensus.nRuleChangeActivationThreshold = p.consensus.nRuleChangeActivationThreshold ∧
      q.consensus.nMinerConfirmationWindow = p.consensus.nMinerConfirmationWindow ∧
      q.consensus.powLimit = p.consensus.powLimit ∧
      q.vSeeds = [] ∧ q.vFixedSeeds = [] := by
  simp only [CUnitTestParams, h, bind, Except.bind, pure, Except.pure, Except.ok.injEq,
    Prod.mk.injEq] at h2
  obtain ⟨hq, _⟩ := h2
  subst hq
  exact ⟨rfl, rfl, rfl, rfl, rfl, rfl⟩

theorem CSegWitTestnet_fields (env : Env) (k : Nat) (q : CChainParams) (k2 : Nat)
    (h2 : CSegWitTestnet env k = .ok (q, k2)) :
    q.consensus.vDeployments.DEPLOYMENT_SEGWIT =
        { bit := 1, nStartTime := 1524733200, nTimeout := 1557187200 } ∧
      q.consensus.vDeployments.DEPLOYMENT_CSV =
        { bit := 0, nStartTime := 0, nTimeout := 999999999999 } ∧
      q.consensus.nRuleChangeActivationThreshold = 9 ∧
      q.consensus.nMinerConfirmationWindow = 10 ∧
      q.consensus.nPowTargetTimespan = 10 * 60 ∧ q.consensus.nPowTargetSpacing = 60 ∧
      q.consensus.powLimit = uint256_max >>> 20 := by
  simp only [CSegWitTestnet, bind, Except.bind, pure, Except.pure, Except.ok.injEq,
    Prod.mk.injEq] at h2
  obtain ⟨hq, _⟩ := h2
  subst hq
  exact ⟨rfl, rfl, rfl, rfl, rfl, rfl, rfl⟩

/-! ## Theorems on the members of the profiles -/

/-- C11: in every profile, every deployment entry whose start time and timeout
the constructors set has a timeout strictly greater than its start time:
SEGWIT and CSV on the main network, the test network, the unit tests and the
SegWit test network; TESTDUMMY, CSV and SEGWIT on the regression-test
network. -/
theorem deployment_timeout_after_start (env : Env) (k : Nat) :
    (∀ p k1, CMainParams env k = .ok (p, k1) →
      p.consensus.vDeployments.DEPLOYMENT_SEGWIT.nTimeout >
        p.consensus.vDeployments.DEPLOYMENT_SEGWIT.nStartTime ∧
      p.consensus.vDeployments.DEPLOYMENT_CSV.nTimeout >
        p.consensus.vDeployments.DEPLOYMENT_CSV.nStartTime) ∧
    (∀ p k1, CTestNetParams env k = .ok (p, k1) →
      p.consensus.vDeployments.DEPLOYMENT_SEGWIT.nTimeout >
        p.consensus.vDeployments.DEPLOYMENT_SEGWIT.nStartTime ∧
      p.consensus.vDeployments.DEPLOYMENT_CSV.nTimeout >
        p.consensus.vDeployments.DEPLOYMENT_CSV.nStartTime) ∧
    (∀ p k1, CUnitTestParams env k = .ok (p, k1) →
      p.consensus.vDeployments.DEPLOYMENT_SEGWIT.nTimeout >
        p.consensus.vDeployments.DEPLOYMENT_SEGWIT.nStartTime ∧
      p.consensus.vDeployments.DEPLOYMENT_CSV.nTimeout >
        p.consensus.vDeployments.DEPLOYMENT_CSV.nStartTime) ∧
    (∀ p k1, CSegWitTestnet env k = .ok (p, k1) →
      p.consensus.vDeployments.DEPLOYMENT_SEGWIT.nTimeout >
        p.consensus.vDeployments.DEPLOYMENT_SEGWIT.nStartTime ∧
      p.consensus.vDeployments.DEPLOYMENT_CSV.nTimeout >
        p.consensus.vDeployments.DEPLOYMENT_CSV.nStartTime) ∧
    (∀ p k1, CRegTestParams env k = .ok (p, k1) →
      p.consensus.vDeployments.DEPLOYMENT_TESTDUMMY.nTimeout >
        p.consensus.vDeployments.DEPLOYMENT_TESTDUMMY.nStartTime ∧
      p.consensus.vDeployments.DEPLOYMENT_CSV.nTimeout >
        p.consensus.vDeployments.DEPLOYMENT_CSV.nStartTime ∧
      p.consensus.vDeployments.DEPLOYMENT_SEGWIT.nTimeout >
        p.consensus.vDeployments.DEPLOYMENT_SEGWIT.nStartTime) := by
  refine ⟨?_, ?_, ?_, ?_, ?_⟩
  · intro p k1 h
    obtain ⟨d1, d2, _⟩ := CMainParams_fields env k p k1 h
    rw [d1, d2]; decide
  · intro q k2 h
    obtain ⟨⟨p, k1, hp⟩, _⟩ := CTestNetParams_ok_inv env k q k2 h
    obtain ⟨_, m2, _⟩ := CMainParams_fields env k p k1 hp
    obtain ⟨d1, d2, _⟩ := CTestNetParams_fields env k p q k1 k2 hp h
    rw [d1, d2, m2]; decide
  · intro q k2 h
    obtain ⟨⟨p, k1, hp⟩, _⟩ := CUnitTestParams_ok_inv env k q k2 h
    obtain ⟨m1, m2, _⟩ := CMainParams_fields env k p k1 hp
    obtain ⟨d, _⟩ := CUnitTestParams_fields env k p q k1 k2 hp h
    rw [d, m1, m2]; decide
  · intro q k2 h
    obtain ⟨d1, d2, _⟩ := CSegWitTestnet_fields env k q k2 h
    rw [d1, d2]; decide
  · intro q k2 h
    cases ht : CTestNetParams env k with
    | error e => rw [CRegTestParams_of_testnet_error env k e ht] at h; cases h
    | ok r =>
      obtain ⟨p, k1⟩ := r
      obtain ⟨d1, d2, d3, _⟩ := CRegTestParams_fields env k p q k1 k2 ht h
      rw [d1, d2, d3]; decide

/-- Witness of C11 at `sampleEnv`: the regression-test profile is built and its
three entries have a timeout after their start time. -/
theorem deployment_timeout_after_start_witness :
    ∃ p k1, CRegTestParams sampleEnv 0 = .ok (p, k1) ∧
      p.consensus.vDeployments.DEPLOYMENT_TESTDUMMY.nTimeout >
        p.consensus.vDeployments.DEPLOYMENT_TESTDUMMY.nStartTime ∧
      p.consensus.vDeployments.DEPLOYMENT_CSV.nTimeout >
        p.consensus.vDeployments.DEPLOYMENT_CSV.nStartTime ∧
      p.consensus.vDeployments.DEPLOYMENT_SEGWIT.nTimeout >
        p.consensus.vDeployments.DEPLOYMENT_SEGWIT.nStartTime :=
  ⟨_, _, rfl, (deployment_timeout_after_start sampleEnv 0).2.2.2.2 _ _ rfl⟩

/-- C12: in every profile `nRuleChangeActivationThreshold` is at most
`nMinerConfirmationWindow`. -/
theorem threshold_le_window (env : Env) (k : Nat) :
    (∀ p k1, CMainParams env k = .ok (p, k1) →
      p.consensus.nRuleChangeActivationThreshold ≤ p.consensus.nMinerConfirmationWindow) ∧
    (∀ p k1, CTestNetParams env k = .ok (p, k1) →
      p.consensus.nRuleChangeActivationThreshold ≤ p.consensus.nMinerConfirmationWindow) ∧
    (∀ p k1, CRegTestParams env k = .ok (p, k1) →
      p.consensus.nRuleChangeActivationThreshold ≤ p.consensus.nMinerConfirmationWindow) ∧
    (∀ p k1, CUnitTestParams env k = .ok (p, k1) →
      p.consensus.nRuleChangeActivationThreshold ≤ p.consensus.nMinerConfirmationWindow) ∧
    (∀ p k1, CSegWitTestnet env k = .ok (p, k1) →
      p.consensus.nRuleChangeActivationThreshold ≤ p.consensus.nMinerConfirmationWindow) := by
  refine ⟨?_, ?_, ?_, ?_, ?_⟩
  · intro p k1 h
    obtain ⟨_, _, a, b, _⟩ := CMainParams_fields env k p k1 h
    rw [a, b]; decide
  · intro q k2 h
    obtain ⟨⟨p, k1, hp⟩, _⟩ := CTestNetParams_ok_inv env k q k2 h
    obtain ⟨_, _, a, b, _⟩ := CTestNetParams_fields env k p q k1 k2 hp h
    rw [a, b]; decide
  · intro q k2 h
    cases ht : CTestNetParams env k with
    | error e => rw [CRegTestParams_of_testnet_error env k e ht] at h; cases h
    | ok r =>
      obtain ⟨p, k1⟩ := r
      obtain ⟨_, _, _, a, b, _⟩ := CRegTestParams_fields env k p q k1 k2 ht h
      rw [a, b]; decide
  · intro q k2 h
    obtain ⟨⟨p, k1, hp⟩, _⟩ := CUnitTestParams_ok_inv env k q k2 h
    obtain ⟨_, _, ma, mb, _⟩ := CMainParams_fields env k p k1 hp
    obtain ⟨_, a, b, _⟩ := CUnitTestParams_fields env k p q k1 k2 hp h
    rw [a, b, ma, mb]; decide
  · intro q k2 h
    obtain ⟨_, _, a, b, _⟩ := CSegWitTestnet_fields env k q k2 h
    rw [a, b]; decide

/-- Witness of C12 at `sampleEnv` and the test network, with the two
values. -/
theorem threshold_le_window_witness :
    ∃ p k1, CTestNetParams sampleEnv 0 = .ok (p, k1) ∧
      p.consensus.nRuleChangeActivationThreshold = 1368 ∧
      p.consensus.nMinerConfirmationWindow = 1440 ∧
      p.consensus.nRuleChangeActivationThreshold ≤ p.consensus.nMinerConfirmationWindow :=
  ⟨_, _, rfl, rfl, rfl, (threshold_le_window sampleEnv 0).2.1 _ _ rfl⟩

/-- C13 (counterexample): with a block hash and a merkle root that are zero
for every block, the constructors `CRegTestParams` and `CUnitTestParams` do
not return: the assertion on the genesis hash of the inherited constructor
`CMainParams` fails. -/
theorem regtest_unittest_fail_main_assertion :
    CRegTestParams zeroHashEnv 0 =
      .error (.assertion "consensus.hashGenesisBlock == uint256(0x000009f6...)") ∧
    CUnitTestParams zeroHashEnv 0 =
      .error (.assertion "consensus.hashGenesisBlock == uint256(0x000009f6...)") :=
  ⟨rfl, rfl⟩

/-- C13 (amended): the constructors `CRegTestParams` and `CUnitTestParams`
execute no assertion of their own, and they run the constructor `CMainParams`
first.  For every block hash and merkle function each of them returns exactly
when the genesis hash and the merkle root computed for the main network equal
the two constants of the main network, and fails an assertion otherwise; the
genesis hash of the regression-test profile is the hash of its own genesis
block and is compared with nothing, the genesis hash of the unit-test profile
is the one of the main network. -/
theorem regtest_unittest_inherit_main_assertions (env : Env) (k : Nat) :
    ((∃ r, CRegTestParams env k = .ok r) ↔
      (env.GetHash (mainGenesis env) = mainGenesisHash ∧
        env.BuildMerkleTree [mainTxNew] = mainMerkleRoot)) ∧
    ((∃ r, CUnitTestParams env k = .ok r) ↔
      (env.GetHash (mainGenesis env) = mainGenesisHash ∧
        env.BuildMerkleTree [mainTxNew] = mainMerkleRoot)) ∧
    (¬ (env.GetHash (mainGenesis env) = mainGenesisHash ∧
        env.BuildMerkleTree [mainTxNew] = mainMerkleRoot) →
      ∃ e, CRegTestParams env k = .error (.assertion e) ∧
        CUnitTestParams env k = .error (.assertion e)) ∧
    (∀ q k2, CRegTestParams env k = .ok (q, k2) →
      q.genesis = regtestGenesis env ∧
      q.consensus.hashGenesisBlock = env.GetHash q.genesis) ∧
    (∀ q k2, CUnitTestParams env k = .ok (q, k2) →
      q.genesis = mainGenesis env ∧ q.consensus.hashGenesisBlock = mainGenesisHash) := by
  have main_ok : (env.GetHash (mainGenesis env) = mainGenesisHash ∧
      env.BuildMerkleTree [mainTxNew] = mainMerkleRoot) →
      ∃ p k1, CMainParams env k = .ok (p, k1) := by
    rintro ⟨h1, h2⟩
    rcases CMainParams_cases env k with ⟨_, _, p, hp, _⟩ | ⟨hne, _⟩
    · exact ⟨_, _, hp⟩
    · rcases hne with hne | hne
      · exact absurd h1 hne
      · exact absurd h2 hne
  refine ⟨⟨?_, ?_⟩, ⟨?_, ?_⟩, ?_, ?_, ?_⟩
  · rintro ⟨⟨q, k2⟩, h⟩
    obtain ⟨⟨p, k1, hp⟩, _⟩ := CRegTestParams_ok_inv env k q k2 h
    obtain ⟨h1, h2, _⟩ := CMainParams_ok_inv env k p k1 hp
    exact ⟨h1, h2⟩
  · intro hc
    obtain ⟨p, k1, hp⟩ := main_ok hc
    obtain ⟨t, ht, _⟩ := CTestNetParams_of_main_ok env k p k1 hp
    obtain ⟨q, hq, _⟩ := CRegTestParams_of_testnet_ok env k t _ ht
    exact ⟨_, hq⟩
  · rintro ⟨⟨q, k2⟩, h⟩
    obtain ⟨⟨p, k1, hp⟩, _⟩ := CUnitTestParams_ok_inv env k q k2 h
    obtain ⟨h1, h2, _⟩ := CMainParams_ok_inv env k p k1 hp
    exact ⟨h1, h2⟩
  · intro hc
    obtain ⟨p, k1, hp⟩ := main_ok hc
    obtain ⟨q, hq, _⟩ := CUnitTestParams_of_main_ok env k p k1 hp
    exact ⟨_, hq⟩
  · intro hn
    rcases CMainParams_cases env k with ⟨h1, h2, _⟩ | ⟨_, e, he⟩
    · exact absurd ⟨h1, h2⟩ hn
    · exact ⟨e, CRegTestParams_of_testnet_error env k _
        (CTestNetParams_of_main_error env k _ he), CUnitTestParams_of_main_error env k _ he⟩
  · intro q k2 h
    obtain ⟨_, g1, g2, _⟩ := CRegTestParams_ok_inv env k q k2 h
    exact ⟨g1, by rw [g2, g1]⟩
  · intro q k2 h
    obtain ⟨_, g1, g2, _⟩ := CUnitTestParams_ok_inv env k q k2 h
    exact ⟨g1, g2⟩

/-- C14: in every profile the genesis block holds exactly one transaction,
which has exactly one input and one output, its previous-block hash is zero,
and its stored merkle root is the merkle root computed over that
one-transaction list; so it is for the derived classes, whose constructors run
after the constructor of the base class has filled the block. -/
theorem genesis_has_single_coinbase (env : Env) (k : Nat) :
    (∀ p k1, CMainParams env k = .ok (p, k1) →
      ∃ tx, p.genesis.vtx = [tx] ∧ tx.vin.length = 1 ∧ tx.vout.length = 1 ∧
        p.genesis.hashPrevBlock = 0 ∧
        p.genesis.hashMerkleRoot = env.BuildMerkleTree p.genesis.vtx) ∧
    (∀ p k1, CTestNetParams env k = .ok (p, k1) →
      ∃ tx, p.genesis.vtx = [tx] ∧ tx.vin.length = 1 ∧ tx.vout.length = 1 ∧
        p.genesis.hashPrevBlock = 0 ∧
        p.genesis.hashMerkleRoot = env.BuildMerkleTree p.genesis.vtx) ∧
    (∀ p k1, CRegTestParams env k = .ok (p, k1) →
      ∃ tx, p.genesis.vtx = [tx] ∧ tx.vin.length = 1 ∧ tx.vout.length = 1 ∧
        p.genesis.hashPrevBlock = 0 ∧
        p.genesis.hashMerkleRoot = env.BuildMerkleTree p.genesis.vtx) ∧
    (∀ p k1, CUnitTestParams env k = .ok (p, k1) →
      ∃ tx, p.genesis.vtx = [tx] ∧ tx.vin.length = 1 ∧ tx.vout.length = 1 ∧
        p.genesis.hashPrevBlock = 0 ∧
        p.genesis.hashMerkleRoot = env.BuildMerkleTree p.genesis.vtx) ∧
    (∀ p k1, CSegWitTestnet env k = .ok (p, k1) →
      ∃ tx, p.genesis.vtx = [tx] ∧ tx.vin.length = 1 ∧ tx.vout.length = 1 ∧
        p.genesis.hashPrevBlock = 0 ∧
        p.genesis.hashMerkleRoot = env.BuildMerkleTree p.genesis.vtx) := by
  refine ⟨?_, ?_, ?_, ?_, ?_⟩
  · intro p k1 h
    obtain ⟨_, _, g, _⟩ := CMainParams_ok_inv env k p k1 h
    rw [g]; exact ⟨mainTxNew, rfl, rfl, rfl, rfl, rfl⟩
  · intro p k1 h
    obtain ⟨_, g, _⟩ := CTestNetParams_ok_inv env k p k1 h
    rw [g]; exact ⟨testnetTxNew, rfl, rfl, rfl, rfl, rfl⟩
  · intro p k1 h
    obtain ⟨_, g, _⟩ := CRegTestParams_ok_inv env k p k1 h
    rw [g]; exact ⟨testnetTxNew, rfl, rfl, rfl, rfl, rfl⟩
  · intro p k1 h
    obtain ⟨_, g, _⟩ := CUnitTestParams_ok_inv env k p k1 h
    rw [g]; exact ⟨mainTxNew, rfl, rfl, rfl, rfl, rfl⟩
  · intro p k1 h
    obtain ⟨g, _⟩ := CSegWitTestnet_ok_inv env k p k1 h
    rw [g]; exact ⟨segwitTxNew env, rfl, rfl, rfl, rfl, rfl⟩

/-- Witness of C14 at `sampleEnv` and the regression-test profile, whose
constructor runs after those of the main and of the test network. -/
theorem genesis_has_single_coinbase_witness :
    ∃ p k1, CRegTestParams sampleEnv 0 = .ok (p, k1) ∧
      ∃ tx, p.genesis.vtx = [tx] ∧ tx.vin.length = 1 ∧ tx.vout.length = 1 ∧
        p.genesis.hashPrevBlock = 0 ∧
        p.genesis.hashMerkleRoot = sampleEnv.BuildMerkleTree p.genesis.vtx :=
  ⟨_, _, rfl, (genesis_has_single_coinbase sampleEnv 0).2.2.1 _ _ rfl⟩

/-- C15: `CheckProof(0, 0x1e0fffff)` is true: under the standard decoder the
compact value `0x1e0fffff` gives the target `0x0fffff * 256^27`, which is not
zero, with neither flag set, and the hash zero does not exceed it. -/
theorem CheckProof_zero_hash_genesis_bits :
    SetCompact 0x1e0fffff =
      { target := 0x0fffff * 256 ^ 27, fNegative := false, fOverflow := false } ∧
    0x1e0fffff / 2 ^ 24 = 0x1e ∧ 0x1e0fffff % 2 ^ 24 = 0x0fffff ∧
    (SetCompact 0x1e0fffff).target ≠ 0 ∧
    CheckProof SetCompact 0 0x1e0fffff = true := by
  decide

/-- C16: when the constructor of the main network returns, the profile has
the default port 28666, the bech32 prefix "bc", the one-byte public-key
address prefix 48, and the genesis hash
0x000009f632929508d7d1e3530e2a9f795824074d4c0f3cd670acb8ecb424de87. -/
theorem main_profile_scenario (env : Env) (k : Nat) (p : CChainParams) (k1 : Nat)
    (h : CMainParams env k = .ok (p, k1)) :
    p.nDefaultPort = 28666 ∧ p.bech32_hrp = "bc" ∧ p.base58Prefixes.PUBKEY_ADDRESS = [48] ∧
      p.consensus.hashGenesisBlock =
        0x000009f632929508d7d1e3530e2a9f795824074d4c0f3cd670acb8ecb424de87 ∧
      p.consensus.hashGenesisBlock = env.GetHash p.genesis := by
  obtain ⟨h1, _, g1, g2, _⟩ := CMainParams_ok_inv env k p k1 h
  obtain ⟨_, _, _, _, _, _, _, a, b, c, _⟩ := CMainParams_fields env k p k1 h
  exact ⟨a, b, c, g2, by rw [g2, g1, h1]⟩

/-- Witness of C16 at `sampleEnv`. -/
theorem main_profile_scenario_witness :
    ∃ p k1, CMainParams sampleEnv 0 = .ok (p, k1) ∧
      p.nDefaultPort = 28666 ∧ p.bech32_hrp = "bc" ∧ p.base58Prefixes.PUBKEY_ADDRESS = [48] ∧
      p.consensus.hashGenesisBlock =
        0x000009f632929508d7d1e3530e2a9f795824074d4c0f3cd670acb8ecb424de87 ∧
      p.consensus.hashGenesisBlock = sampleEnv.GetHash p.genesis :=
  ⟨_, _, rfl, main_profile_scenario sampleEnv 0 _ _ rfl⟩

/-- C17 (the code at the failing input): the main profile has
`nMinerConfirmationWindow = 1080` while `nPowTargetTimespan / nPowTargetSpacing`
is `60 / 60 = 1`, and the test-network profile has the window 1440 while the
quotient is `1800 / 120 = 15`; only in the SegWit test profile the window, 10,
is the quotient `600 / 60`. -/
theorem confirmation_window_vs_quotient (env : Env) (k : Nat) :
    (∀ p k1, CMainParams env k = .ok (p, k1) →
      p.consensus.nMinerConfirmationWindow = 1080 ∧
      p.consensus.nPowTargetTimespan / p.consensus.nPowTargetSpacing = 1 ∧
      p.consensus.nMinerConfirmationWindow ≠
        p.consensus.nPowTargetTimespan / p.consensus.nPowTargetSpacing) ∧
    (∀ p k1, CTestNetParams env k = .ok (p, k1) →
      p.consensus.nMinerConfirmationWindow = 1440 ∧
      p.consensus.nPowTargetTimespan / p.consensus.nPowTargetSpacing = 15 ∧
      p.consensus.nMinerConfirmationWindow ≠
        p.consensus.nPowTargetTimespan / p.consensus.nPowTargetSpacing) ∧
    (∀ p k1, CSegWitTestnet env k = .ok (p, k1) →
      p.consensus.nMinerConfirmationWindow = 10 ∧
      p.consensus.nMinerConfirmationWindow =
        p.consensus.nPowTargetTimespan / p.consensus.nPowTargetSpacing) := by
  refine ⟨?_, ?_, ?_⟩
  · intro p k1 h
    obtain ⟨_, _, _, w, t, s, _⟩ := CMainParams_fields env k p k1 h
    rw [w, t, s]; decide
  · intro q k2 h
    obtain ⟨⟨p, k1, hp⟩, _⟩ := CTestNetParams_ok_inv env k q k2 h
    obtain ⟨_, _, _, w, t, s, _⟩ := CTestNetParams_fields env k p q k1 k2 hp h
    rw [w, t, s]; decide
  · intro q k2 h
    obtain ⟨_, _, _, w, t, s, _⟩ := CSegWitTestnet_fields env k q k2 h
    rw [w, t, s]; decide

/-- Witness of C17 at `sampleEnv`: the main profile is built, its window is
1080 and the quotient of its timespan and spacing is 1. -/
theorem confirmation_window_vs_quotient_witness :
    ∃ p k1, CMainParams sampleEnv 0 = .ok (p, k1) ∧
      p.consensus.nMinerConfirmationWindow = 1080 ∧
      p.consensus.nPowTargetTimespan / p.consensus.nPowTargetSpacing = 1 ∧
      p.consensus.nMinerConfirmationWindow ≠
        p.consensus.nPowTargetTimespan / p.consensus.nPowTargetSpacing :=
  ⟨_, _, rfl, (confirmation_window_vs_quotient sampleEnv 0).1 _ _ rfl⟩

/-- C18: the regression-test profile and the unit-test profile have an empty
list of fixed seeds and an empty list of DNS seeds, although the constructors
that ran before filled them: `CMainParams` leaves two DNS seeds and one fixed
seed for each record of `pnSeed6_main`, and `CTestNetParams`, which empties
both lists, leaves one fixed seed for each record of `pnSeed6_test` (and no
DNS seed). -/
theorem regtest_unittest_have_no_seeds (env : Env) (k : Nat) :
    (∀ q k2, CRegTestParams env k = .ok (q, k2) → q.vFixedSeeds = [] ∧ q.vSeeds = []) ∧
    (∀ q k2, CUnitTestParams env k = .ok (q, k2) → q.vFixedSeeds = [] ∧ q.vSeeds = []) ∧
    (∀ p k1, CMainParams env k = .ok (p, k1) →
      p.vSeeds.length = 2 ∧ p.vFixedSeeds = (convertSeed6 env [] env.pnSeed6_main k).1 ∧
      p.vFixedSeeds.length = env.pnSeed6_main.length) ∧
    (∀ p k1 q k2, CMainParams env k = .ok (p, k1) → CTestNetParams env k = .ok (q, k2) →
      q.vSeeds = [] ∧ q.vFixedSeeds = (convertSeed6 env [] env.pnSeed6_test k1).1 ∧
      q.vFixedSeeds.length = env.pnSeed6_test.length) := by
  refine ⟨?_, ?_, ?_, ?_⟩
  · intro q k2 h
    cases ht : CTestNetParams env k with
    | error e => rw [CRegTestParams_of_testnet_error env k e ht] at h; cases h
    | ok r =>
      obtain ⟨p, k1⟩ := r
      obtain ⟨_, _, _, _, _, _, a, b⟩ := CRegTestParams_fields env k p q k1 k2 ht h
      exact ⟨b, a⟩
  · intro q k2 h
    obtain ⟨⟨p, k1, hp⟩, _⟩ := CUnitTestParams_ok_inv env k q k2 h
    obtain ⟨_, _, _, _, a, b⟩ := CUnitTestParams_fields env k p q k1 k2 hp h
    exact ⟨b, a⟩
  · intro p k1 h
    obtain ⟨_, _, _, _, _, _, _, _, _, _, a, b⟩ := CMainParams_fields env k p k1 h
    refine ⟨by rw [a]; rfl, ?_, ?_⟩
    · rw [b, convertSeed6_eq, List.nil_append]
    · rw [b, convertedEntries_length]
  · intro p k1 q k2 hp h
    obtain ⟨_, _, _, _, _, _, _, a, b⟩ := CTestNetParams_fields env k p q k1 k2 hp h
    refine ⟨a, ?_, ?_⟩
    · rw [b, convertSeed6_eq, List.nil_append]
    · rw [b, convertedEntries_length]

/-- Witness of C18 at `sampleEnv`: the main profile has two DNS seeds and two
fixed seeds, and the unit-test profile built after it has none. -/
theorem regtest_unittest_have_no_seeds_witness :
    ∃ p k1 q k2, CMainParams sampleEnv 0 = .ok (p, k1) ∧
      CUnitTestParams sampleEnv 0 = .ok (q, k2) ∧
      p.vSeeds.length = 2 ∧ p.vFixedSeeds.length = 2 ∧ q.vFixedSeeds = [] ∧ q.vSeeds = [] :=
  ⟨_, _, _, _, rfl, rfl, rfl, rfl,
    (regtest_unittest_have_no_seeds sampleEnv 0).2.1 _ _ rfl⟩

/-- C19: in every profile the `nBits` of the genesis block (`0x1e0fffff` on
the main network, the test network, the unit tests and the SegWit test
network, `0x207fffff` on the regression-test network) decodes under the
standard decoder to a target that is not zero, with neither flag set, and at
most the `powLimit` of the profile (`2^236 - 1`, `2^246 - 1` on the test
network, `2^255 - 1` on the regression-test network). -/
theorem genesis_bits_within_powLimit (env : Env) (k : Nat) :
    (∀ p k1, CMainParams env k = .ok (p, k1) →
      p.genesis.nBits = 0x1e0fffff ∧ p.consensus.powLimit = 2 ^ 236 - 1 ∧
      (SetCompact p.genesis.nBits).target ≠ 0 ∧
      (SetCompact p.genesis.nBits).fNegative = false ∧
      (SetCompact p.genesis.nBits).fOverflow = false ∧
      (SetCompact p.genesis.nBits).target ≤ p.consensus.powLimit) ∧
    (∀ p k1, CTestNetParams env k = .ok (p, k1) →
      p.genesis.nBits = 0x1e0fffff ∧ p.consensus.powLimit = 2 ^ 246 - 1 ∧
      (SetCompact p.genesis.nBits).target ≠ 0 ∧
      (SetCompact p.genesis.nBits).fNegative = false ∧
      (SetCompact p.genesis.nBits).fOverflow = false ∧
      (SetCompact p.genesis.nBits).target ≤ p.consensus.powLimit) ∧
    (∀ p k1, CRegTestParams env k = .ok (p, k1) →
      p.genesis.nBits = 0x207fffff ∧ p.consensus.powLimit = 2 ^ 255 - 1 ∧
      (SetCompact p.genesis.nBits).target ≠ 0 ∧
      (SetCompact p.genesis.nBits).fNegative = false ∧
      (SetCompact p.genesis.nBits).fOverflow = false ∧
      (SetCompact p.genesis.nBits).target ≤ p.consensus.powLimit) ∧
    (∀ p k1, CUnitTestParams env k = .ok (p, k1) →
      p.genesis.nBits = 0x1e0fffff ∧ p.consensus.powLimit = 2 ^ 236 - 1 ∧
      (SetCompact p.genesis.nBits).target ≠ 0 ∧
      (SetCompact p.genesis.nBits).fNegative = false ∧
      (SetCompact p.genesis.nBits).fOverflow = false ∧
      (SetCompact p.genesis.nBits).target ≤ p.consensus.powLimit) ∧
    (∀ p k1, CSegWitTestnet env k = .ok (p, k1) →
      p.genesis.nBits = 0x1e0fffff ∧ p.consensus.powLimit = 2 ^ 236 - 1 ∧
      (SetCompact p.genesis.nBits).target ≠ 0 ∧
      (SetCompact p.genesis.nBits).fNegative = false ∧
      (SetCompact p.genesis.nBits).fOverflow = false ∧
      (SetCompact p.genesis.nBits).target ≤ p.consensus.powLimit) := by
  have e20 : uint256_max >>> 20 = 2 ^ 236 - 1 := by decide
  have e10 : uint256_max >>> 10 = 2 ^ 246 - 1 := by decide
  have e1 : uint256_max >>> 1 = 2 ^ 255 - 1 := by decide
  refine ⟨?_, ?_, ?_, ?_, ?_⟩
  · intro p k1 h
    obtain ⟨_, _, g, _⟩ := CMainParams_ok_inv env k p k1 h
    obtain ⟨_, _, _, _, _, _, pl, _⟩ := CMainParams_fields env k p k1 h
    have hb : p.genesis.nBits = 0x1e0fffff := by rw [g]; rfl
    rw [hb, pl, e20]; decide
  · intro q k2 h
    obtain ⟨⟨p, k1, hp⟩, g, _⟩ := CTestNetParams_ok_inv env k q k2 h
    obtain ⟨_, _, _, _, _, _, pl, _⟩ := CTestNetParams_fields env k p q k1 k2 hp h
    have hb : q.genesis.nBits = 0x1e0fffff := by rw [g]; rfl
    rw [hb, pl, e10]; decide
  · intro q k2 h
    obtain ⟨_, g, _⟩ := CRegTestParams_ok_inv env k q k2 h
    have hb : q.genesis.nBits = 0x207fffff := by rw [g]; rfl
    cases ht : CTestNetParams env k with
    | error e => rw [CRegTestParams_of_testnet_error env k e ht] at h; cases h
    | ok r =>
      obtain ⟨p, k1⟩ := r
      obtain ⟨_, _, _, _, _, pl, _⟩ := CRegTestParams_fields env k p q k1 k2 ht h
      rw [hb, pl, e1]; decide
  · intro q k2 h
    obtain ⟨⟨p, k1, hp⟩, g, _⟩ := CUnitTestParams_ok_inv env k q k2 h
    obtain ⟨_, _, _, _, _, _, mpl, _⟩ := CMainParams_fields env k p k1 hp
    obtain ⟨_, _, _, pl, _⟩ := CUnitTestParams_fields env k p q k1 k2 hp h
    have hb : q.genesis.nBits = 0x1e0fffff := by rw [g]; rfl
    rw [hb, pl, mpl, e20]; decide
  · intro q k2 h
    obtain ⟨g, _⟩ := CSegWitTestnet_ok_inv env k q k2 h
    obtain ⟨_, _, _, _, _, _, pl⟩ := CSegWitTestnet_fields env k q k2 h
    have hb : q.genesis.nBits = 0x1e0fffff := by rw [g]; rfl
    rw [hb, pl, e20]; decide

/-- Witness of C19 at `sampleEnv` and the regression-test profile, with the
decoded target. -/
theorem genesis_bits_within_powLimit_witness :
    ∃ p k1, CRegTestParams sampleEnv 0 = .ok (p, k1) ∧
      (SetCompact p.genesis.nBits).target = 0x7fffff * 256 ^ 29 ∧
      (SetCompact p.genesis.nBits).target ≤ p.consensus.powLimit :=
  ⟨_, _, rfl, by decide,
    ((genesis_bits_within_powLimit sampleEnv 0).2.2.1 _ _ rfl).2.2.2.2.2⟩

/-- C20: each setter of `CUnitTestParams` changes one member and no other: the
member it names has the argument as its value afterwards, and putting the
former value of that one member back gives the object from before the call, so
every other member is as it was.  When a setter is called on the object that
`ModifiableParams()` returns, the other four objects and `pCurrentParams` are
as before as well. -/
theorem setters_change_one_member (p : CChainParams) (n : Int) (b : Bool) :
    ((setEnforceBlockUpgradeMajority p n).consensus.nMajorityEnforceBlockUpgrade = n ∧
      { setEnforceBlockUpgradeMajority p n with
        consensus.nMajorityEnforceBlockUpgrade := p.consensus.nMajorityEnforceBlockUpgrade } = p) ∧
    ((setRejectBlockOutdatedMajority p n).consensus.nMajorityRejectBlockOutdated = n ∧
      { setRejectBlockOutdatedMajority p n with
        consensus.nMajorityRejectBlockOutdated := p.consensus.nMajorityRejectBlockOutdated } = p) ∧
    ((setToCheckBlockUpgradeMajority p n).consensus.nMajorityWindow = n ∧
      { setToCheckBlockUpgradeMajority p n with
        consensus.nMajorityWindow := p.consensus.nMajorityWindow } = p) ∧
    ((setDefaultConsistencyChecks p b).fDefaultConsistencyChecks = b ∧
      { setDefaultConsistencyChecks p b with
        fDefaultConsistencyChecks := p.fDefaultConsistencyChecks } = p) ∧
    ((setAllowMinDifficultyBlocks p b).consensus.fPowAllowMinDifficultyBlocks = b ∧
      { setAllowMinDifficultyBlocks p b with
        consensus.fPowAllowMinDifficultyBlocks := p.consensus.fPowAllowMinDifficultyBlocks } = p) ∧
    ((setSkipProofOfWorkCheck p b).fSkipProofOfWorkCheck = b ∧
      { setSkipProofOfWorkCheck p b with
        fSkipProofOfWorkCheck := p.fSkipProofOfWorkCheck } = p) ∧
    (∀ (env : Env) (g g1 : Globals) (c : Call), c.isSelect = false → c.run env g = .ok g1 →
      g1.mainParams = g.mainParams ∧ g1.testNetParams = g.testNetParams ∧
      g1.regTestParams = g.regTestParams ∧ g1.segwitParams = g.segwitParams ∧
      g1.pCurrentParams = g.pCurrentParams) := by
  refine ⟨⟨rfl, rfl⟩, ⟨rfl, rfl⟩, ⟨rfl, rfl⟩, ⟨rfl, rfl⟩, ⟨rfl, rfl⟩, ⟨rfl, rfl⟩, ?_⟩
  intro env g g1 c hc h
  cases c with
  | SelectParams v => simp [Call.isSelect] at hc
  | setEnforceBlockUpgradeMajority v =>
    simp only [Call.run] at h
    obtain ⟨_, h2⟩ := viaModifiableParams_ok_inv g g1 _ h
    subst h2; exact ⟨rfl, rfl, rfl, rfl, rfl⟩
  | setRejectBlockOutdatedMajority v =>
    simp only [Call.run] at h
    obtain ⟨_, h2⟩ := viaModifiableParams_ok_inv g g1 _ h
    subst h2; exact ⟨rfl, rfl, rfl, rfl, rfl⟩
  | setToCheckBlockUpgradeMajority v =>
    simp only [Call.run] at h
    obtain ⟨_, h2⟩ := viaModifiableParams_ok_inv g g1 _ h
    subst h2; exact ⟨rfl, rfl, rfl, rfl, rfl⟩
  | setDefaultConsistencyChecks v =>
    simp only [Call.run] at h
    obtain ⟨_, h2⟩ := viaModifiableParams_ok_inv g g1 _ h
    subst h2; exact ⟨rfl, rfl, rfl, rfl, rfl⟩
  | setAllowMinDifficultyBlocks v =>
    simp only [Call.run] at h
    obtain ⟨_, h2⟩ := viaModifiableParams_ok_inv g g1 _ h
    subst h2; exact ⟨rfl, rfl, rfl, rfl, rfl⟩
  | setSkipProofOfWorkCheck v =>
    simp only [Call.run] at h
    obtain ⟨_, h2⟩ := viaModifiableParams_ok_inv g g1 _ h
    subst h2; exact ⟨rfl, rfl, rfl, rfl, rfl⟩

/-- Witness of C20 at the unit-test profile of `sampleEnv`: after
`setSkipProofOfWorkCheck(true)` the member is true, the default port is still
51478, and putting the former value back gives the profile from before. -/
theorem setters_change_one_member_witness :
    ∃ p k1, CUnitTestParams sampleEnv 0 = .ok (p, k1) ∧
      p.fSkipProofOfWorkCheck = false ∧ (setSkipProofOfWorkCheck p true).nDefaultPort = 51478 ∧
      (setSkipProofOfWorkCheck p true).fSkipProofOfWorkCheck = true ∧
      { setSkipProofOfWorkCheck p true with
        fSkipProofOfWorkCheck := p.fSkipProofOfWorkCheck } = p :=
  ⟨_, _, rfl, rfl, rfl, (setters_change_one_member _ 0 true).2.2.2.2.2.1⟩

/-! ## Theorems on `ModifiableParams` and on the output vector of `convertSeed6` -/

theorem ModifiableParams_eq (g : Globals) :
    ModifiableParams g =
      match g.pCurrentParams with
      | none => .error (.assertion "pCurrentParams")
      | some .unitTestParams => .ok .unitTestParams
      | some _ => .error (.assertion "pCurrentParams == &unitTestParams") := by
  unfold ModifiableParams
  cases h : g.pCurrentParams with
  | none => rfl
  | some ptr => cases ptr <;> rfl

theorem ParamsFor_unitTestParams (v : Network) (h : ParamsFor v = .ok .unitTestParams) :
    v = .UNITTEST := by
  cases v <;> simp [ParamsFor, pure, Except.pure, throw, throwThe, MonadExceptOf.throw] at h
  rfl

/-- C21: `ModifiableParams()` returns exactly when the active object is
`unitTestParams`, and then it returns the address of that object, whose
`networkID` is `UNITTEST`.  It fails its first assertion while no profile is
selected and its second assertion when the object of the main network, the
test network, the regression-test network or the SegWit test network is
selected; so a setter called through it runs only while `unitTestParams` is
selected and leaves the other four objects as they are. -/
theorem ModifiableParams_iff_unittest_selected (env : Env) :
    (∀ g, (∃ ptr, ModifiableParams g = .ok ptr) ↔ Params g = .ok .unitTestParams) ∧
    (∀ g ptr, ModifiableParams g = .ok ptr → ptr = .unitTestParams) ∧
    (∀ g, g.pCurrentParams = none →
      ModifiableParams g = .error (.assertion "pCurrentParams")) ∧
    (∀ g ptr, g.pCurrentParams = some ptr → ptr ≠ .unitTestParams →
      ModifiableParams g = .error (.assertion "pCurrentParams == &unitTestParams")) ∧
    (∀ g, ReachableUnselected env g → ∃ e, ModifiableParams g = .error (.assertion e)) ∧
    (∀ g v g1, Reachable env g → SelectParams env g v = .ok g1 →
      ((∃ ptr, ModifiableParams g1 = .ok ptr) ↔ v = .UNITTEST) ∧
      (v ≠ .UNITTEST → ∃ e, ModifiableParams g1 = .error (.assertion e)) ∧
      (v = .UNITTEST → ModifiableParams g1 = .ok .unitTestParams ∧
        (g1.deref .unitTestParams).networkID = .UNITTEST)) ∧
    (∀ (g g1 : Globals) (c : Call), c.isSelect = false → c.run env g = .ok g1 →
      Params g = .ok .unitTestParams ∧
      g1.mainParams = g.mainParams ∧ g1.testNetParams = g.testNetParams ∧
      g1.regTestParams = g.regTestParams ∧ g1.segwitParams = g.segwitParams) := by
  refine ⟨?_, ?_, ?_, ?_, ?_, ?_, ?_⟩
  · intro g
    rw [ModifiableParams_eq]
    unfold Params
    cases h : g.pCurrentParams with
    | none => simp [throw, throwThe, MonadExceptOf.throw]
    | some ptr => cases ptr <;> simp [pure, Except.pure]
  · intro g ptr h
    rw [ModifiableParams_eq] at h
    cases hp : g.pCurrentParams with
    | none => simp [hp] at h
    | some q =>
      cases q <;> simp [hp] at h
      exact h.symm
  · intro g h
    rw [ModifiableParams_eq, h]
  · intro g ptr h hne
    rw [ModifiableParams_eq, h]
    cases ptr <;> first | rfl | exact absurd rfl hne
  · intro g hg
    have h0 := ReachableUnselected.pCurrentParams env g hg
    exact ⟨_, by rw [ModifiableParams_eq, h0]⟩
  · intro g v g1 hg hsel
    obtain ⟨_, ptr, hptr, hg1⟩ := SelectParams_ok_inv env g g1 v hsel
    have hreach : Reachable env g1 := Reachable.step g g1 (.SelectParams v) hg hsel
    have hid := (Reachable.networkID env g1 hreach).2.2.2.1
    have hcur : g1.pCurrentParams = some ptr := by rw [hg1]
    have hne : v ≠ .UNITTEST → ∃ e, ModifiableParams g1 = .error (.assertion e) := by
      intro hv
      rw [ModifiableParams_eq, hcur]
      cases ptr
      · exact ⟨_, rfl⟩
      · exact ⟨_, rfl⟩
      · exact ⟨_, rfl⟩
      · exact absurd (ParamsFor_unitTestParams v hptr) hv
      · exact ⟨_, rfl⟩
    have heq : v = .UNITTEST → ModifiableParams g1 = .ok .unitTestParams := by
      intro hv
      subst hv
      simp only [ParamsFor, pure, Except.pure, Except.ok.injEq] at hptr
      subst hptr
      rw [ModifiableParams_eq, hcur]
    refine ⟨⟨?_, fun hv => ⟨_, heq hv⟩⟩, hne, fun hv => ⟨heq hv, hid⟩⟩
    rintro ⟨q, hq⟩
    by_contra hv
    obtain ⟨e, he⟩ := hne hv
    rw [he] at hq
    cases hq
  · intro g g1 c hc h
    have hp := (Call.run_setter_inv env g g1 c hc h).1
    have hP : Params g = .ok .unitTestParams := by
      simp only [Params, hp, pure, Except.pure]
    refine ⟨hP, ?_⟩
    cases c with
    | SelectParams v => simp [Call.isSelect] at hc
    | setEnforceBlockUpgradeMajority v =>
      simp only [Call.run] at h
      obtain ⟨_, h2⟩ := viaModifiableParams_ok_inv g g1 _ h
      subst h2; exact ⟨rfl, rfl, rfl, rfl⟩
    | setRejectBlockOutdatedMajority v =>
      simp only [Call.run] at h
      obtain ⟨_, h2⟩ := viaModifiableParams_ok_inv g g1 _ h
      subst h2; exact ⟨rfl, rfl, rfl, rfl⟩
    | setToCheckBlockUpgradeMajority v =>
      simp only [Call.run] at h
      obtain ⟨_, h2⟩ := viaModifiableParams_ok_inv g g1 _ h
      subst h2; exact ⟨rfl, rfl, rfl, rfl⟩
    | setDefaultConsistencyChecks v =>
      simp only [Call.run] at h
      obtain ⟨_, h2⟩ := viaModifiableParams_ok_inv g g1 _ h
      subst h2; exact ⟨rfl, rfl, rfl, rfl⟩
    | setAllowMinDifficultyBlocks v =>
      simp only [Call.run] at h
      obtain ⟨_, h2⟩ := viaModifiableParams_ok_inv g g1 _ h
      subst h2; exact ⟨rfl, rfl, rfl, rfl⟩
    | setSkipProofOfWorkCheck v =>
      simp only [Call.run] at h
      obtain ⟨_, h2⟩ := viaModifiableParams_ok_inv g g1 _ h
      subst h2; exact ⟨rfl, rfl, rfl, rfl⟩

/-- Witness of C21 at `sampleEnv`: `ModifiableParams()` fails after the
initialisation and after `SelectParams(MAIN)`, and returns `unitTestParams`
after `SelectParams(UNITTEST)`. -/
theorem ModifiableParams_iff_unittest_selected_witness :
    ∃ g g1 g2, staticInit sampleEnv = .ok g ∧
      ModifiableParams g = .error (.assertion "pCurrentParams") ∧
      SelectParams sampleEnv g .MAIN = .ok g1 ∧
      ModifiableParams g1 = .error (.assertion "pCurrentParams == &unitTestParams") ∧
      SelectParams sampleEnv g .UNITTEST = .ok g2 ∧
      ModifiableParams g2 = .ok .unitTestParams ∧
      (g2.deref .unitTestParams).networkID = .UNITTEST :=
  ⟨_, _, _, rfl, rfl, rfl, rfl, rfl,
    ((ModifiableParams_iff_unittest_selected sampleEnv).2.2.2.2.2.1 _ .UNITTEST _
      (Reachable.init _ rfl) rfl).2.2 rfl⟩

/-- C22: `convertSeed6` appends to its output vector.  For every vector `L`
and every list of `n` records the result is `L` followed by the `n` entries
that the conversion into an empty vector gives; the entries of `L` keep their
positions, the `i`-th record is at position `|L| + i`, and the result has
`|L| + n` entries. -/
theorem convertSeed6_appends (env : Env) (L : List CAddress) (data : List SeedSpec6) (k : Nat) :
    (convertSeed6 env L data k).1 = L ++ (convertSeed6 env [] data k).1 ∧
    (convertSeed6 env L data k).1.length = L.length + data.length ∧
    (∀ i : Nat, i < L.length → (convertSeed6 env L data k).1[i]? = L[i]?) ∧
    (∀ i : Nat, (convertSeed6 env L data k).1[L.length + i]? =
      (convertSeed6 env [] data k).1[i]?) ∧
    (convertSeed6 env L data k).2 = k + data.length := by
  have e1 := convertSeed6_eq env data L k
  have e2 := convertSeed6_eq env data [] k
  rw [List.nil_append] at e2
  rw [e1, e2]
  refine ⟨rfl, ?_, ?_, ?_, rfl⟩
  · rw [List.length_append, convertedEntries_length]
  · intro i hi
    exact List.getElem?_append_left hi
  · intro i
    rw [List.getElem?_append_right (Nat.le_add_right _ _), Nat.add_sub_cancel_left]

/-- Witness of C22 at `sampleEnv`: converting the record of the test network
into the vector of the two entries of the main network gives three entries, of
which the first two are the ones from before. -/
theorem convertSeed6_appends_witness :
    (convertSeed6 sampleEnv (convertSeed6 sampleEnv [] sampleEnv.pnSeed6_main 0).1
        sampleEnv.pnSeed6_test 2).1.length = 3 ∧
      (convertSeed6 sampleEnv (convertSeed6 sampleEnv [] sampleEnv.pnSeed6_main 0).1
        sampleEnv.pnSeed6_test 2).1 =
        (convertSeed6 sampleEnv [] sampleEnv.pnSeed6_main 0).1 ++
          (convertSeed6 sampleEnv [] sampleEnv.pnSeed6_test 2).1 :=
  ⟨rfl, (convertSeed6_appends sampleEnv _ sampleEnv.pnSeed6_test 2).1⟩

end Lux
